import Mathlib

/-!
# Verification of the multiperiod two-echelon network-design core

Shallow embedding of the repository's core modules:

* `src/app/classes.py`   — entity records `Pixel`, `Satellite`, `Vehicle`;
* `src/app/utils.py`     — the continuous-approximation fleet-size estimator
  `CADeterministic.__avg_fleet_size`;
* `src/app/models.py`    — the Stage-1 (`Deterministic`) and Stage-2
  (`SecondStage`) MILP builders on top of the external `gurobipy` solver.

Modelling conventions:

* Python floats are modelled as rationals (`ℚ`); `math.sqrt` is modelled by
  `Rat.sqrt` (exact on perfect squares; no claim below depends on the value of
  a square root).
* Python division is total in the model (`x / 0 = 0` in `ℚ`); the
  `ZeroDivisionError` paths of the source are never relied upon by a theorem.
* Python dictionaries appear either as association lists (last binding wins,
  as in CPython) or, for dictionaries claims only ever read pointwise, as
  total functions.
* Attribute access on a Python object may fail with `AttributeError` when the
  attribute was never assigned.  `Vehicle.__init__` assigns
  `max_time_services` but no code in the repository ever assigns `Tmax`, so
  the dynamic attribute `Tmax` is modelled as an `Option` field that the
  constructor leaves at `none`; functions that read it return
  `Except String _`.
* The external `gurobipy` collaborator is modelled by its documented API
  contract: `Model.reset()` discards computed solution information only —
  variables and constraints are retained; `addVar`/`addConstr` append;
  `setObjective` replaces the objective.  Attribute access on a model
  follows the Gurobi attribute reference: reading a name that is not a
  retrievable attribute of the model raises, just as reading an unassigned
  Python attribute does (see `kpiAttributeError`).
-/

/-! ## Entities (`src/app/classes.py`) -/

/-- `classes.Pixel`: the fields consumed by the estimator and the models.
`demand_by_period`, `avg_drop`, `avg_stop` are Python lists indexed by period
and `speed_intra_stop` a dict indexed by vehicle type; both are modelled as
total functions (no claim exercises an out-of-range index or a missing key). -/
structure Pixel where
  id : String
  area_km : ℚ
  demand_by_period : Nat → ℚ
  avg_drop : Nat → ℚ
  avg_stop : Nat → ℚ
  speed_intra_stop : String → ℚ
  k : ℚ

/-- `classes.Satellite`: the fields consumed by the models.  The Python
`capacity` dict is split into its (unique, insertion-ordered) key list
`capacity_keys` and its value mapping `capacity`; `cost_fixed` and
`cost_operation` are read pointwise and modelled as total functions. -/
structure Satellite where
  id : String
  cost_fixed : String → ℚ
  cost_operation : String → Nat → ℚ
  capacity_keys : List String
  capacity : String → ℚ
  cost_sourcing : ℚ

/-- `classes.Vehicle`: exactly the attributes assigned by `__init__`, plus the
dynamic attribute slot `Tmax` read by `utils.CADeterministic.__avg_fleet_size`.
No code in the repository assigns `Tmax`, so on every vehicle produced by the
constructor it is `none` and reading it raises `AttributeError`. -/
structure Vehicle where
  id : String
  type : String
  capacity : ℚ
  cost_fixed : ℚ
  time_fixed : ℚ
  time_service : ℚ
  time_dispatch : ℚ
  time_load : ℚ
  speed_line_haul : ℚ
  max_time_services : ℚ
  k : ℚ
  Tmax : Option ℚ

/-- `Vehicle.__init__`: assigns the eleven declared attributes; the dynamic
attribute `Tmax` is not among them. -/
def Vehicle.init (id type : String) (capacity cost_fixed time_service time_fixed
    time_dispatch time_load speed_line_haul max_time_services k : ℚ) : Vehicle :=
  { id := id, type := type, capacity := capacity, cost_fixed := cost_fixed,
    time_fixed := time_fixed, time_service := time_service,
    time_dispatch := time_dispatch, time_load := time_load,
    speed_line_haul := speed_line_haul, max_time_services := max_time_services,
    k := k, Tmax := none }

/-! ## Fleet-size estimator (`src/app/utils.py`, `__avg_fleet_size`) -/

/-- The dictionary returned by `CADeterministic.__avg_fleet_size`, one field
per key, in the order of the source. -/
structure FleetEstimate where
  fleet_size : ℚ
  avg_tour_time : ℚ
  fully_loaded_tours : ℚ
  effective_capacity : ℚ
  demand_served : ℚ
  avg_drop : ℚ
  avg_stop_density : ℚ
  avg_time : ℚ
  avg_time_dispatch : ℚ
  avg_time_line_haul : ℚ
deriving DecidableEq, Repr

/-- `CADeterministic.__avg_fleet_size(pixel, vehicle, t, distance)`.
The returned value is `Except.error` exactly where the Python function raises:
in the non-degenerate branch `vehicle.Tmax` is read, and the attribute does
not exist on any vehicle built by `Vehicle.__init__`. -/
def avgFleetSize (pixel : Pixel) (vehicle : Vehicle) (t : Nat) (distance : ℚ) :
    Except String FleetEstimate :=
  if pixel.avg_drop t ≤ 0 ∨ pixel.avg_stop t ≤ 0 ∨ pixel.demand_by_period t ≤ 0 then
    .ok { fleet_size := 0, avg_tour_time := 0, fully_loaded_tours := 0,
          effective_capacity := 0,
          demand_served := pixel.demand_by_period t,
          avg_drop := pixel.avg_drop t,
          avg_stop_density := pixel.avg_stop t,
          avg_time := 0, avg_time_dispatch := 0, avg_time_line_haul := 0 }
  else
    let effective_vehicle_capacity := vehicle.capacity / pixel.avg_drop t
    let time_services := vehicle.time_fixed + vehicle.time_service * pixel.avg_drop t
    let time_intra_stop := (vehicle.k * pixel.k) /
      (pixel.speed_intra_stop vehicle.type * Rat.sqrt (pixel.avg_drop t / pixel.area_km))
    let avg_tour_time := effective_vehicle_capacity * (time_services + time_intra_stop)
    let time_preparing_dispatch := vehicle.time_dispatch +
      effective_vehicle_capacity * pixel.avg_drop t * vehicle.time_load
    let time_line_haul := 2 * (distance * vehicle.k / vehicle.speed_line_haul)
    match vehicle.Tmax with
    | none => .error "AttributeError: Vehicle object has no attribute Tmax"
    | some tmax =>
      let beta := tmax / (avg_tour_time + time_preparing_dispatch + time_line_haul)
      let avg_time := avg_tour_time + time_preparing_dispatch + time_line_haul
      let numerador := pixel.avg_stop t
      let denominador := beta * effective_vehicle_capacity
      let v := if denominador > 0 then numerador / denominador else 0
      .ok { fleet_size := v, avg_tour_time := avg_tour_time,
            fully_loaded_tours := beta,
            effective_capacity := effective_vehicle_capacity,
            demand_served := pixel.demand_by_period t,
            avg_drop := pixel.avg_drop t,
            avg_stop_density := pixel.avg_stop t,
            avg_time := avg_time,
            avg_time_dispatch := time_preparing_dispatch,
            avg_time_line_haul := time_line_haul }

/-! ## Claims about the fleet-size estimator -/

/-- A concrete, fully non-degenerate estimator input: all of `avg_drop`,
`avg_stop` and `demand_by_period` are `1 > 0`, every divisor on the
non-degenerate path is nonzero, and the vehicle is built by
`Vehicle.__init__` with `max_time_services = 8`. -/
def pixelC1 : Pixel :=
  { id := "1", area_km := 1, demand_by_period := fun _ => 1,
    avg_drop := fun _ => 1, avg_stop := fun _ => 1,
    speed_intra_stop := fun _ => 1, k := 1 }

/-- `Vehicle("1", "small", capacity=10, cost_fixed=0, time_service=1,
time_fixed=1, time_dispatch=1, time_load=1, speed_line_haul=1,
max_time_services=8, k=1)`. -/
def vehicleC1 : Vehicle := Vehicle.init "1" "small" 10 0 1 1 1 1 1 8 1

/-- **C1**: the claim says that on non-degenerate input the estimator returns
`fully_loaded_tours = vehicle.max_time_service / (avg_tour_time +
time_preparing_dispatch + time_line_haul)` and the corresponding
`fleet_size`.  The code instead reads `vehicle.Tmax` (utils.py line 99), an
attribute that `Vehicle.__init__` never assigns (it assigns
`max_time_services`, classes.py line 92) and that no other code in the
repository assigns either, so every non-degenerate call raises
`AttributeError` and returns no estimate at all.  Evaluated here at the
concrete non-degenerate input `pixelC1`/`vehicleC1`, period `0`,
line-haul distance `1`. -/
theorem C1_nondegenerate_estimator_raises_attribute_error :
    avgFleetSize pixelC1 vehicleC1 0 1 =
      Except.error "AttributeError: Vehicle object has no attribute Tmax" := rfl

/-- A degenerate estimator input (`demand_by_period = 0`) whose per-stop
statistics are nonzero: `avg_drop = 2`, `avg_stop = 3`. -/
def pixelC2 : Pixel :=
  { id := "2", area_km := 1, demand_by_period := fun _ => 0,
    avg_drop := fun _ => 2, avg_stop := fun _ => 3,
    speed_intra_stop := fun _ => 1, k := 1 }

def vehicleC2 : Vehicle := Vehicle.init "2" "small" 10 0 1 1 1 1 1 8 1

/-- **C2** counterexample: at the degenerate input `pixelC2` (demand `0`,
`avg_drop = 2`, `avg_stop = 3`) the guard branch returns `avg_drop = 2` and
`avg_stop_density = 3`, so it is false that every returned field other than
`demand_served` equals `0`. -/
theorem C2_counterexample_guard_echoes_pixel_statistics :
    avgFleetSize pixelC2 vehicleC2 0 1 =
      Except.ok
        { fleet_size := 0, avg_tour_time := 0, fully_loaded_tours := 0,
          effective_capacity := 0, demand_served := 0, avg_drop := 2,
          avg_stop_density := 3, avg_time := 0, avg_time_dispatch := 0,
          avg_time_line_haul := 0 } ∧ (2 : ℚ) ≠ 0 :=
  ⟨rfl, by norm_num⟩

/-- **C2** (amended): on any degenerate input (`avg_drop[t] ≤ 0` or
`avg_stop[t] ≤ 0` or `demand_by_period[t] ≤ 0`) the estimator returns the
estimate whose fields are all `0` except `demand_served`, which equals the
pixel's demand for the period, and `avg_drop` / `avg_stop_density`, which
echo the pixel's `avg_drop[t]` / `avg_stop[t]`. -/
theorem C2_degenerate_guard (p : Pixel) (v : Vehicle) (t : Nat) (d : ℚ)
    (h : p.avg_drop t ≤ 0 ∨ p.avg_stop t ≤ 0 ∨ p.demand_by_period t ≤ 0) :
    avgFleetSize p v t d =
      Except.ok
        { fleet_size := 0, avg_tour_time := 0, fully_loaded_tours := 0,
          effective_capacity := 0, demand_served := p.demand_by_period t,
          avg_drop := p.avg_drop t, avg_stop_density := p.avg_stop t,
          avg_time := 0, avg_time_dispatch := 0, avg_time_line_haul := 0 } := by
  simp only [avgFleetSize, if_pos h]

/-- Witness for `C2_degenerate_guard` at the concrete input `pixelC2`. -/
theorem C2_degenerate_guard_witness :
    avgFleetSize pixelC2 vehicleC2 0 1 =
      Except.ok
        { fleet_size := 0, avg_tour_time := 0, fully_loaded_tours := 0,
          effective_capacity := 0, demand_served := 0, avg_drop := 2,
          avg_stop_density := 3, avg_time := 0, avg_time_dispatch := 0,
          avg_time_line_haul := 0 } :=
  C2_degenerate_guard pixelC2 vehicleC2 0 1 (Or.inr (Or.inr (by norm_num [pixelC2])))

/-- Non-degenerate input with `avg_stop = 1`; `pixelC9b` is identical except
`avg_stop = 2`. -/
def pixelC9a : Pixel :=
  { id := "9", area_km := 1, demand_by_period := fun _ => 1,
    avg_drop := fun _ => 1, avg_stop := fun _ => 1,
    speed_intra_stop := fun _ => 1, k := 1 }

def pixelC9b : Pixel := { pixelC9a with avg_stop := fun _ => 2 }

def vehicleC9 : Vehicle := Vehicle.init "9" "small" 10 0 1 1 1 1 1 8 1

/-- **C9**: the claim says that with all else fixed and `beta > 0`,
increasing `avg_stop[t]` strictly increases the returned `fleet_size`.  The
code never returns a `fleet_size` on any non-degenerate input: before `beta`
or `fleet_size` is computed it reads the nonexistent attribute
`vehicle.Tmax` (utils.py line 99; `Vehicle.__init__` assigns
`max_time_services`) and raises `AttributeError`.  Evaluated here at two
inputs differing only in `avg_stop[0]` (`1` versus `2`): both calls error
out instead of returning comparable fleet sizes. -/
theorem C9_monotonicity_unobservable_attribute_error :
    avgFleetSize pixelC9a vehicleC9 0 1 =
      Except.error "AttributeError: Vehicle object has no attribute Tmax" ∧
    avgFleetSize pixelC9b vehicleC9 0 1 =
      Except.error "AttributeError: Vehicle object has no attribute Tmax" :=
  ⟨rfl, rfl⟩

/-! ## The external MILP solver collaborator (`gurobipy`)

Only the behaviour the model layer relies on is modelled: a model owns a
growing set of variables (identified by creation index), a list of named
linear constraints, an objective expression and a status.  Per the Gurobi
reference manual, `Model.reset()` discards computed solution information
(returning the status to "loaded") and retains all variables and
constraints; `addVar`/`addConstr` append; `setObjective` replaces the
objective. -/

inductive GRBStatus
  | loaded | optimal | infeasible | unbounded | timeLimit | other
deriving DecidableEq, Repr

/-- A linear expression: a list of (coefficient, variable-index) terms plus a
constant, as accumulated by `quicksum` and by adding expressions. -/
structure LinExpr where
  terms : List (ℚ × Nat)
  const : ℚ
deriving DecidableEq, Repr

/-- `LinExpr.getValue()`: evaluate at a variable assignment. -/
def LinExpr.eval (e : LinExpr) (v : Nat → ℚ) : ℚ :=
  (e.terms.map fun p => p.1 * v p.2).sum + e.const

def LinExpr.add (e f : LinExpr) : LinExpr :=
  { terms := e.terms ++ f.terms, const := e.const + f.const }

inductive CSense
  | le | eq
deriving DecidableEq, Repr

/-- A named linear constraint `lhs ≤ rhs` or `lhs = rhs`. -/
structure Constr where
  name : String
  lhs : LinExpr
  sense : CSense
  rhs : ℚ
deriving DecidableEq, Repr

/-- A variable assignment satisfies a constraint. -/
def Constr.sat (c : Constr) (v : Nat → ℚ) : Prop :=
  match c.sense with
  | .le => c.lhs.eval v ≤ c.rhs
  | .eq => c.lhs.eval v = c.rhs

structure GRBModel where
  name : String
  numVars : Nat
  constrs : List Constr
  objective : LinExpr
  minimize : Bool
  status : GRBStatus
deriving DecidableEq, Repr

/-- `gb.Model(name)`. -/
def GRBModel.new (name : String) : GRBModel :=
  { name := name, numVars := 0, constrs := [], objective := ⟨[], 0⟩,
    minimize := true, status := .loaded }

/-- `Model.reset()`: solution information is discarded (status back to
loaded); variables, constraints and objective are retained. -/
def GRBModel.reset (m : GRBModel) : GRBModel := { m with status := .loaded }

/-- `count` successive `Model.addVar` calls: indices
`m.numVars, …, m.numVars + count - 1` are created. -/
def GRBModel.addVars (m : GRBModel) (count : Nat) : GRBModel :=
  { m with numVars := m.numVars + count }

/-- Successive `Model.addConstr` calls. -/
def GRBModel.addConstrs (m : GRBModel) (cs : List Constr) : GRBModel :=
  { m with constrs := m.constrs ++ cs }

/-- `Model.setObjective(expr, GRB.MINIMIZE)`. -/
def GRBModel.setObjective (m : GRBModel) (e : LinExpr) : GRBModel :=
  { m with objective := e, minimize := true }

/-! ## Python dictionaries of solver variables -/

/-- A Python dict mapping index tuples to solver variables, in insertion
order; built by the `self.X = dict([...])` comprehensions. -/
abbrev VarMap (κ : Type) := List (κ × Nat)

/-- The variable dict produced by a comprehension that calls `addVar` once
per key, starting from creation index `start`. -/
def mkVarMap {κ : Type} (start : Nat) (keys : List κ) : VarMap κ :=
  (keys.enumFrom start).map fun p => (p.2, p.1)

/-- CPython dict lookup: the last binding of a key wins. -/
def dictGet {κ ν : Type} [DecidableEq κ] : List (κ × ν) → κ → Option ν
  | [], _ => none
  | (a, b) :: rest, k => match dictGet rest k with
    | some v => some v
    | none => if k = a then some b else none

/-- `self.X[key]` on a variable dict.  Every lookup performed by the builders
below is within the dict's key set, so the default index is never produced. -/
def varOf {κ : Type} [DecidableEq κ] (d : VarMap κ) (k : κ) : Nat :=
  (dictGet d k).getD 0

/-! ## Stage 1: `models.Deterministic` -/

/-- Key set of `self.X` (satellite, tier, period), in creation order. -/
def detXKeys (P : Nat) (satellites : List Satellite) : List (String × String × Nat) :=
  satellites.flatMap fun s => s.capacity_keys.flatMap fun q =>
    (List.range P).map fun t => (s.id, q, t)

/-- Key set of `self.Z` (satellite, pixel, period). -/
def detZKeys (P : Nat) (satellites : List Satellite) (pixels : List Pixel) :
    List (String × String × Nat) :=
  satellites.flatMap fun s => pixels.flatMap fun k =>
    (List.range P).map fun t => (s.id, k.id, t)

/-- Key set of `self.W` (pixel, period). -/
def detWKeys (P : Nat) (pixels : List Pixel) : List (String × Nat) :=
  pixels.flatMap fun k => (List.range P).map fun t => (k.id, t)

/-- Key set of `self.Y` (satellite, tier). -/
def detYKeys (satellites : List Satellite) : List (String × String) :=
  satellites.flatMap fun s => s.capacity_keys.map fun q => (s.id, q)

/-- `R_Open_{s}`: `Σ_q Y[s,q] ≤ 1`. -/
def mkOpenConstr (Ymap : VarMap (String × String)) (s : Satellite) : Constr :=
  { name := "R_Open_s" ++ s.id,
    lhs := ⟨s.capacity_keys.map fun q => ((1 : ℚ), varOf Ymap (s.id, q)), 0⟩,
    sense := .le, rhs := 1 }

def detOpenConstrs (Ymap : VarMap (String × String)) (satellites : List Satellite) :
    List Constr :=
  satellites.map (mkOpenConstr Ymap)

/-- `R_Operating_{s}_{q}_{t}`: `X[s,q,t] ≤ Y[s,q]`. -/
def mkOperConstr (Xmap : VarMap (String × String × Nat)) (Ymap : VarMap (String × String))
    (s : Satellite) (q : String) (t : Nat) : Constr :=
  { name := "R_Operating_s" ++ s.id ++ "_q" ++ q ++ "_t" ++ toString t,
    lhs := ⟨[((1 : ℚ), varOf Xmap (s.id, q, t)), ((-1 : ℚ), varOf Ymap (s.id, q))], 0⟩,
    sense := .le, rhs := 0 }

def detOperConstrs (P : Nat) (Xmap : VarMap (String × String × Nat))
    (Ymap : VarMap (String × String)) (satellites : List Satellite) : List Constr :=
  (List.range P).flatMap fun t => satellites.flatMap fun s =>
    s.capacity_keys.map fun q => mkOperConstr Xmap Ymap s q t

/-- `R_Assign_{s}_{k}_{t}`: `Z[s,k,t] - Σ_q X[s,q,t] ≤ 0`. -/
def mkAssignConstr (Xmap Zmap : VarMap (String × String × Nat))
    (s : Satellite) (k : Pixel) (t : Nat) : Constr :=
  { name := "R_Assign_s" ++ s.id ++ "_k" ++ k.id ++ "_t" ++ toString t,
    lhs := ⟨((1 : ℚ), varOf Zmap (s.id, k.id, t)) ::
      s.capacity_keys.map fun q => ((-1 : ℚ), varOf Xmap (s.id, q, t)), 0⟩,
    sense := .le, rhs := 0 }

def detAssignConstrs (P : Nat) (Xmap Zmap : VarMap (String × String × Nat))
    (satellites : List Satellite) (pixels : List Pixel) : List Constr :=
  (List.range P).flatMap fun t => pixels.flatMap fun k =>
    satellites.map fun s => mkAssignConstr Xmap Zmap s k t

/-- `R_capacity_{s}_{t}`:
`Σ_k Z[s,k,t]·fleet_size[s,k,t] - Σ_q Y[s,q]·capacity[s,q] ≤ 0`. -/
def mkCapConstr (Ymap : VarMap (String × String)) (Zmap : VarMap (String × String × Nat))
    (vrSmall : String → String → Nat → ℚ) (pixels : List Pixel)
    (s : Satellite) (t : Nat) : Constr :=
  { name := "R_capacity_s" ++ s.id ++ "_t" ++ toString t,
    lhs := ⟨(pixels.map fun k => (vrSmall s.id k.id t, varOf Zmap (s.id, k.id, t))) ++
      (s.capacity_keys.map fun q => (-(s.capacity q), varOf Ymap (s.id, q))), 0⟩,
    sense := .le, rhs := 0 }

def detCapConstrs (P : Nat) (Ymap : VarMap (String × String))
    (Zmap : VarMap (String × String × Nat)) (vrSmall : String → String → Nat → ℚ)
    (satellites : List Satellite) (pixels : List Pixel) : List Constr :=
  (List.range P).flatMap fun t =>
    satellites.map fun s => mkCapConstr Ymap Zmap vrSmall pixels s t

/-- `R_demand_{k}_{t}`: `Σ_s Z[s,k,t] + W[k,t] = 1`. -/
def mkDemandConstr (Zmap : VarMap (String × String × Nat)) (Wmap : VarMap (String × Nat))
    (satellites : List Satellite) (k : Pixel) (t : Nat) : Constr :=
  { name := "R_demand_k" ++ k.id ++ "_t" ++ toString t,
    lhs := ⟨(satellites.map fun s => ((1 : ℚ), varOf Zmap (s.id, k.id, t))) ++
      [((1 : ℚ), varOf Wmap (k.id, t))], 0⟩,
    sense := .eq, rhs := 1 }

def detDemandConstrs (P : Nat) (Zmap : VarMap (String × String × Nat))
    (Wmap : VarMap (String × Nat)) (satellites : List Satellite)
    (pixels : List Pixel) : List Constr :=
  (List.range P).flatMap fun t =>
    pixels.map fun k => mkDemandConstr Zmap Wmap satellites k t

/-- `self.cost_allocation_satellites = quicksum(cost_fixed[q] * Y[s,q] ...)`. -/
def detCostAlloc (Ymap : VarMap (String × String)) (satellites : List Satellite) : LinExpr :=
  ⟨satellites.flatMap fun s =>
    s.capacity_keys.map fun q => (s.cost_fixed q, varOf Ymap (s.id, q)), 0⟩

/-- `self.cost_operating_satellites = quicksum(cost_operation[q][t] * X[s,q,t] ...)`. -/
def detCostOper (P : Nat) (Xmap : VarMap (String × String × Nat))
    (satellites : List Satellite) : LinExpr :=
  ⟨satellites.flatMap fun s => s.capacity_keys.flatMap fun q =>
    (List.range P).map fun t => (s.cost_operation q t, varOf Xmap (s.id, q, t)), 0⟩

/-- `self.cost_served_from_satellite = quicksum(costs["satellite"][(s,k,t)]["total"] * Z[s,k,t] ...)`. -/
def detCostSat (P : Nat) (Zmap : VarMap (String × String × Nat))
    (costSat : String → String → Nat → ℚ) (satellites : List Satellite)
    (pixels : List Pixel) : LinExpr :=
  ⟨satellites.flatMap fun s => pixels.flatMap fun k =>
    (List.range P).map fun t => (costSat s.id k.id t, varOf Zmap (s.id, k.id, t)), 0⟩

/-- `self.cost_served_from_dc = quicksum(costs["dc"][(k,t)]["total"] * W[k,t] ...)`
(same comprehension in both stages). -/
def detCostDc (P : Nat) (Wmap : VarMap (String × Nat)) (costDc : String → Nat → ℚ)
    (pixels : List Pixel) : LinExpr :=
  ⟨pixels.flatMap fun k =>
    (List.range P).map fun t => (costDc k.id t, varOf Wmap (k.id, t)), 0⟩

/-! ## Results and metrics containers -/

/-- `self.results`: a dict with the four keys the results block of
`get_results` assigns; a `none` field models an absent key.  In every
actual run the dict stays empty: on an accepted status `get_results`
raises in the kpi block before reaching the results block. -/
structure ResultsT where
  X : Option (List ((String × String × Nat) × ℚ))
  Y : Option (List ((String × String) × ℚ))
  Z : Option (List ((String × String × Nat) × ℚ))
  W : Option (List ((String × Nat) × ℚ))
deriving DecidableEq, Repr

def ResultsT.empty : ResultsT := ⟨none, none, none, none⟩

/-- The `kpi_models` dict both `get_results` bodies set out to assemble,
one field per key in source order.  Assembly never completes — the reads
after `n_solutions` raise (see `kpiAttributeError`) — so no value of this
type is ever constructed. -/
structure Kpis where
  objective : ℚ
  status : GRBStatus
  time : ℚ
  gap : ℚ
  n_variables : Nat
  n_constraints : Nat
  n_nodes : ℚ
  n_iterations : ℚ
  n_solutions : ℚ
  n_obj_values : ℚ
  n_cuts : ℚ
  n_branches : ℚ
  n_barriers : ℚ
  n_gomory_cuts : ℚ
  n_mip_start : ℚ
  n_lazy_constraints : ℚ
  n_user_cuts : ℚ
  n_var_branches : ℚ
  n_var_up_branches : ℚ
  n_var_down_branches : ℚ
  n_impl_bound_cuts : ℚ
  n_flow_covers : ℚ
  n_mir_cuts : ℚ
  n_gub_cuts : ℚ
  n_clique_cuts : ℚ
  n_flow_paths : ℚ
  n_mcf_cuts : ℚ
  n_zero_half_cuts : ℚ
  n_network_cuts : ℚ
  n_submip_nodes : ℚ
  n_cut_passes : ℚ
  n_gomory_passes : ℚ

/-- `self.metrics["constraints"]`: the slack grouping `get_results` would
write last (Stage 2 only the final three families); unreachable, and its
`getConstrByName(key)` calls pass `Constr` objects where a name string is
required (models.py:392-415, 736-750), so it could not succeed anyway. -/
structure ConstrFamilies where
  allocation_satellite : Option (List (String × ℚ))
  operating_satellite : Option (List (String × ℚ))
  assign_pixel_satellite : Option (List (String × ℚ))
  capacity_satellite : Option (List (String × ℚ))
  demand_satified : Option (List (String × ℚ))
deriving DecidableEq, Repr

/-- `self.metrics`: one field per key the `get_results` bodies assign; in
every actual run it stays empty (the kpi block raises first). -/
structure MetricsT where
  model : Option Kpis
  cost_allocation_satellite : Option ℚ
  cost_operating_satellite : Option ℚ
  cost_served_from_satellite : Option ℚ
  cost_served_from_dc : Option ℚ
  cost_total : Option ℚ
  constraints : Option ConstrFamilies

def MetricsT.empty : MetricsT := ⟨none, none, none, none, none, none, none⟩

/-- The error both `get_results` bodies raise on an accepted status.  Per
the Gurobi attribute reference, a solved model exposes the first nine
names the kpi block reads (`ObjVal`, `Status`, `Runtime`, `MIPGap`,
`NumVars`, `NumConstrs`, `NodeCount`, `IterCount`, `SolCount`), which fill
the local `kpi_models` dict; the reads that follow fail: `ObjNVal` is a
multi-objective attribute and is not retrievable on these single-objective
models, `CutN`, `BranchN`, `GomoryN`, `NumMIPStart`, `Lazy`, `UserCut`,
`VarBranch`, `VarUp`, `VarDown`, `ImplBd`, `FlowCover`, `FlowPath`,
`GUBCover` and `MCFCuts` are not gurobipy `Model` attributes at all, and
`MIRCuts`, `CliqueCuts`, `ZeroHalfCuts`, `NetworkCuts`, `SubMIPNodes`,
`CutPasses`, `GomoryPasses` name solver parameters, to which attribute
access does not fall back.  Reading any of them raises — the same dynamic
failure as `vehicle.Tmax` in the estimator (models.py:326-348, 660-695). -/
def kpiAttributeError : String :=
  "AttributeError: unable to retrieve attribute (ObjNVal, CutN, BranchN, ...)"

/-! ## Stage-1 model object -/

/-- The mutable attributes of a `models.Deterministic` instance.  The five
`cost_*` expressions are assigned by `__add_objective`; before the first
`build()` they hold the empty expression (the attributes do not exist yet in
Python, and nothing reads them before `build()`). -/
structure DetState where
  model : GRBModel
  PERIODS : Nat
  X : VarMap (String × String × Nat)
  Z : VarMap (String × String × Nat)
  W : VarMap (String × Nat)
  Y : VarMap (String × String)
  cost_allocation_satellites : LinExpr
  cost_operating_satellites : LinExpr
  cost_served_from_satellite : LinExpr
  cost_served_from_dc : LinExpr
  cost_total : LinExpr
  results : ResultsT
  metrics : MetricsT

/-- `Deterministic.__init__(periods, name_model)`. -/
def detInit (periods : Nat) (name : String) : DetState :=
  { model := GRBModel.new name, PERIODS := periods,
    X := [], Z := [], W := [], Y := [],
    cost_allocation_satellites := ⟨[], 0⟩, cost_operating_satellites := ⟨[], 0⟩,
    cost_served_from_satellite := ⟨[], 0⟩, cost_served_from_dc := ⟨[], 0⟩,
    cost_total := ⟨[], 0⟩, results := ResultsT.empty, metrics := MetricsT.empty }

/-- `Deterministic.build(satellites, pixels, vehicles_required, costs)`:
`model.reset()`, then `__add_variables` (X, Z, W, Y in creation order),
`__add_objective`, `__add_constraints` (allocation, operating, assign,
capacity, demand), `model.update()`.
`vrSmall s k t` stands for `vehicles_required["small"][(s, k, t)]["fleet_size"]`,
`costSat s k t` for `costs["satellite"][(s, k, t)]["total"]` and
`costDc k t` for `costs["dc"][(k, t)]["total"]`. -/
def detBuild (st : DetState) (satellites : List Satellite) (pixels : List Pixel)
    (vrSmall : String → String → Nat → ℚ)
    (costSat : String → String → Nat → ℚ) (costDc : String → Nat → ℚ) : DetState :=
  let m0 := st.model.reset
  let xKeys := detXKeys st.PERIODS satellites
  let Xmap := mkVarMap m0.numVars xKeys
  let m1 := m0.addVars xKeys.length
  let zKeys := detZKeys st.PERIODS satellites pixels
  let Zmap := mkVarMap m1.numVars zKeys
  let m2 := m1.addVars zKeys.length
  let wKeys := detWKeys st.PERIODS pixels
  let Wmap := mkVarMap m2.numVars wKeys
  let m3 := m2.addVars wKeys.length
  let yKeys := detYKeys satellites
  let Ymap := mkVarMap m3.numVars yKeys
  let m4 := m3.addVars yKeys.length
  let costAllocE := detCostAlloc Ymap satellites
  let costOperE := detCostOper st.PERIODS Xmap satellites
  let costSatE := detCostSat st.PERIODS Zmap costSat satellites pixels
  let costDcE := detCostDc st.PERIODS Wmap costDc pixels
  let costTotalE := ((costAllocE.add costDcE).add costSatE).add costOperE
  let m5 := m4.setObjective costTotalE
  let m6 := m5.addConstrs (detOpenConstrs Ymap satellites)
  let m7 := m6.addConstrs (detOperConstrs st.PERIODS Xmap Ymap satellites)
  let m8 := m7.addConstrs (detAssignConstrs st.PERIODS Xmap Zmap satellites pixels)
  let m9 := m8.addConstrs (detCapConstrs st.PERIODS Ymap Zmap vrSmall satellites pixels)
  let m10 := m9.addConstrs (detDemandConstrs st.PERIODS Zmap Wmap satellites pixels)
  { st with
    model := m10, X := Xmap, Z := Zmap, W := Wmap, Y := Ymap,
    cost_allocation_satellites := costAllocE,
    cost_operating_satellites := costOperE,
    cost_served_from_satellite := costSatE,
    cost_served_from_dc := costDcE,
    cost_total := costTotalE }

/-- `Deterministic.get_results()` (models.py:307-418).  On a status other
than optimal or time-limit the body only logs, so the call returns with
`results` and `metrics` exactly as they were and raises nothing.  On
optimal or time-limit the kpi block performs its nine successful reads
into the local `kpi_models` dict and then raises at the diagnostic reads
(see `kpiAttributeError`): `self.metrics` and `self.results` are never
assigned, and the cost-metric, variable and slack extraction below the kpi
block is unreachable. -/
def detGetResults (st : DetState) : Except String DetState :=
  if st.model.status = .optimal ∨ st.model.status = .timeLimit then
    .error kpiAttributeError
  else
    .ok st

/-! ## Stage 2: `models.SecondStage` -/

/-- The caller-supplied `param_y` dict: resolved tier selections keyed by
(satellite id, tier). -/
abbrev YParam := List ((String × String) × ℚ)

/-- `self.Y[(s, q)]` on the fixed mapping.  The claims below quantify over
mappings that bind every key the builder reads (a missing key would raise
`KeyError` in Python; that path decides no claim). -/
def yval (Y : YParam) (k : String × String) : ℚ := (dictGet Y k).getD 0

/-- `sum([self.Y[(s.id, q_id)] for q_id in s.capacity.keys()])`. -/
def sumYs (Y : YParam) (s : Satellite) : ℚ :=
  (s.capacity_keys.map fun q => yval Y (s.id, q)).sum

/-- Key set of Stage-2 `self.X`: only tiers with `Y[(s,q)] > 0`. -/
def secXKeys (P : Nat) (Y : YParam) (satellites : List Satellite) :
    List (String × String × Nat) :=
  satellites.flatMap fun s => s.capacity_keys.flatMap fun q =>
    (List.range P).flatMap fun t =>
      if 0 < yval Y (s.id, q) then [(s.id, q, t)] else []

/-- Key set of Stage-2 `self.Z`: only satellites with `sum_q Y[(s,q)] > 0`. -/
def secZKeys (P : Nat) (Y : YParam) (satellites : List Satellite)
    (pixels : List Pixel) : List (String × String × Nat) :=
  satellites.flatMap fun s => pixels.flatMap fun k =>
    (List.range P).flatMap fun t =>
      if 0 < sumYs Y s then [(s.id, k.id, t)] else []

/-- `self.cost_allocation_satellites`: a plain Python number, not a solver
expression (`sum`, with the `if self.Y[...] > 0` guard). -/
def secCostAllocC (Y : YParam) (satellites : List Satellite) : ℚ :=
  (satellites.flatMap fun s => s.capacity_keys.flatMap fun q =>
    if 0 < yval Y (s.id, q) then [s.cost_fixed q * yval Y (s.id, q)] else []).sum

/-- Stage-2 `self.cost_operating_satellites` (guard `Y[(s,q)] > 0`). -/
def secCostOper (P : Nat) (Y : YParam) (Xmap : VarMap (String × String × Nat))
    (satellites : List Satellite) : LinExpr :=
  ⟨satellites.flatMap fun s => s.capacity_keys.flatMap fun q =>
    (List.range P).flatMap fun t =>
      if 0 < yval Y (s.id, q) then
        [(s.cost_operation q t, varOf Xmap (s.id, q, t))] else [], 0⟩

/-- Stage-2 `self.cost_served_from_satellite` (guard `sum_q Y[(s,q)] > 0`). -/
def secCostSat (P : Nat) (Y : YParam) (Zmap : VarMap (String × String × Nat))
    (costSat : String → String → Nat → ℚ) (satellites : List Satellite)
    (pixels : List Pixel) : LinExpr :=
  ⟨satellites.flatMap fun s => pixels.flatMap fun k =>
    (List.range P).flatMap fun t =>
      if 0 < sumYs Y s then
        [(costSat s.id k.id t, varOf Zmap (s.id, k.id, t))] else [], 0⟩

/-- Stage-2 `R_Assign_{s}_{k}_{t}` (only for open satellites; the `X` sum
keeps only tiers with `Y[(s,q)] > 0`). -/
def secAssignConstrs (P : Nat) (Y : YParam) (Xmap Zmap : VarMap (String × String × Nat))
    (satellites : List Satellite) (pixels : List Pixel) : List Constr :=
  (List.range P).flatMap fun t => pixels.flatMap fun k =>
    satellites.flatMap fun s =>
      if 0 < sumYs Y s then
        [{ name := "R_Assign_s" ++ s.id ++ "_k" ++ k.id ++ "_t" ++ toString t,
           lhs := ⟨((1 : ℚ), varOf Zmap (s.id, k.id, t)) ::
             (s.capacity_keys.flatMap fun q =>
               if 0 < yval Y (s.id, q) then
                 [((-1 : ℚ), varOf Xmap (s.id, q, t))] else []), 0⟩,
           sense := .le, rhs := 0 }]
      else []

/-- Stage-2 `R_demand_{k}_{t}`: the `Z` sum ranges over open satellites. -/
def secDemandConstrs (P : Nat) (Y : YParam) (Zmap : VarMap (String × String × Nat))
    (Wmap : VarMap (String × Nat)) (satellites : List Satellite)
    (pixels : List Pixel) : List Constr :=
  (List.range P).flatMap fun t => pixels.map fun k =>
    { name := "R_demand_k" ++ k.id ++ "_t" ++ toString t,
      lhs := ⟨(satellites.flatMap fun s =>
        if 0 < sumYs Y s then [((1 : ℚ), varOf Zmap (s.id, k.id, t))] else []) ++
        [((1 : ℚ), varOf Wmap (k.id, t))], 0⟩,
      sense := .eq, rhs := 1 }

/-- Stage-2 `R_capacity_{s}_{t}` (only for open satellites): the right-hand
side is the plain number `sum(Y[(s,q)] * capacity[q] for q with Y > 0)`. -/
def secCapConstrs (P : Nat) (Y : YParam) (Zmap : VarMap (String × String × Nat))
    (vrSmall : String → String → Nat → ℚ) (satellites : List Satellite)
    (pixels : List Pixel) : List Constr :=
  (List.range P).flatMap fun t => satellites.flatMap fun s =>
    if 0 < sumYs Y s then
      [{ name := "R_capacity_s" ++ s.id ++ "_t" ++ toString t,
         lhs := ⟨pixels.flatMap fun k =>
           if 0 < sumYs Y s then
             [(vrSmall s.id k.id t, varOf Zmap (s.id, k.id, t))] else [], 0⟩,
         sense := .le,
         rhs := (s.capacity_keys.flatMap fun q =>
           if 0 < yval Y (s.id, q) then [yval Y (s.id, q) * s.capacity q] else []).sum }]
    else []

/-- The mutable attributes of a `models.SecondStage` instance.  `Y` is the
caller-supplied fixed mapping; `cost_allocation_satellites` is a plain
number. -/
structure SecState where
  model : GRBModel
  PERIODS : Nat
  X : VarMap (String × String × Nat)
  Z : VarMap (String × String × Nat)
  W : VarMap (String × Nat)
  Y : YParam
  cost_allocation_satellites : ℚ
  cost_operating_satellites : LinExpr
  cost_served_from_satellite : LinExpr
  cost_served_from_dc : LinExpr
  cost_total : LinExpr
  results : ResultsT
  metrics : MetricsT

/-- `SecondStage.__init__(periods, param_y, name_model)`. -/
def secInit (periods : Nat) (paramY : YParam) (name : String) : SecState :=
  { model := GRBModel.new name, PERIODS := periods,
    X := [], Z := [], W := [], Y := paramY,
    cost_allocation_satellites := 0, cost_operating_satellites := ⟨[], 0⟩,
    cost_served_from_satellite := ⟨[], 0⟩, cost_served_from_dc := ⟨[], 0⟩,
    cost_total := ⟨[], 0⟩, results := ResultsT.empty, metrics := MetricsT.empty }

/-- `SecondStage.build(...)`: `model.reset()`, `__add_variables` (X, Z, W),
`__add_objective` (allocation as a plain constant; X/Z/W expressions; the
objective is `dc + satellite + operating`, without the allocation constant),
`__add_constraints` (assign, demand, capacity), `model.update()`. -/
def secBuild (st : SecState) (satellites : List Satellite) (pixels : List Pixel)
    (vrSmall : String → String → Nat → ℚ)
    (costSat : String → String → Nat → ℚ) (costDc : String → Nat → ℚ) : SecState :=
  let Y := st.Y
  let m0 := st.model.reset
  let xKeys := secXKeys st.PERIODS Y satellites
  let Xmap := mkVarMap m0.numVars xKeys
  let m1 := m0.addVars xKeys.length
  let zKeys := secZKeys st.PERIODS Y satellites pixels
  let Zmap := mkVarMap m1.numVars zKeys
  let m2 := m1.addVars zKeys.length
  let wKeys := detWKeys st.PERIODS pixels
  let Wmap := mkVarMap m2.numVars wKeys
  let m3 := m2.addVars wKeys.length
  let costAllocC := secCostAllocC Y satellites
  let costOperE := secCostOper st.PERIODS Y Xmap satellites
  let costSatE := secCostSat st.PERIODS Y Zmap costSat satellites pixels
  let costDcE := detCostDc st.PERIODS Wmap costDc pixels
  let costTotalE := (costDcE.add costSatE).add costOperE
  let m4 := m3.setObjective costTotalE
  let m5 := m4.addConstrs (secAssignConstrs st.PERIODS Y Xmap Zmap satellites pixels)
  let m6 := m5.addConstrs (secDemandConstrs st.PERIODS Y Zmap Wmap satellites pixels)
  let m7 := m6.addConstrs (secCapConstrs st.PERIODS Y Zmap vrSmall satellites pixels)
  { st with
    model := m7, X := Xmap, Z := Zmap, W := Wmap,
    cost_allocation_satellites := costAllocC,
    cost_operating_satellites := costOperE,
    cost_served_from_satellite := costSatE,
    cost_served_from_dc := costDcE,
    cost_total := costTotalE }

/-- `SecondStage.get_results()` (models.py:654-753): same control flow as
Stage 1's, with the same kpi block (models.py:660-695).  On a
non-accepted status it only logs and returns with `results` and `metrics`
unchanged; on optimal or time-limit it raises at the diagnostic reads, so
the cost metrics at models.py:699 and 717 (the allocation constant and
`cost_total.getValue()`), the variable extraction and the slack grouping
are never reached. -/
def secGetResults (st : SecState) : Except String SecState :=
  if st.model.status = .optimal ∨ st.model.status = .timeLimit then
    .error kpiAttributeError
  else
    .ok st

/-! ## Structural lemmas about `build()` -/

/-- The constraint block one `Deterministic.build()` call appends, with
solver variables allocated from creation index `n0` onward. -/
def detBatch (P n0 : Nat) (satellites : List Satellite) (pixels : List Pixel)
    (vrSmall : String → String → Nat → ℚ) : List Constr :=
  let xKeys := detXKeys P satellites
  let Xmap := mkVarMap n0 xKeys
  let n1 := n0 + xKeys.length
  let zKeys := detZKeys P satellites pixels
  let Zmap := mkVarMap n1 zKeys
  let n2 := n1 + zKeys.length
  let wKeys := detWKeys P pixels
  let Wmap := mkVarMap n2 wKeys
  let n3 := n2 + wKeys.length
  let Ymap := mkVarMap n3 (detYKeys satellites)
  detOpenConstrs Ymap satellites ++ detOperConstrs P Xmap Ymap satellites
    ++ detAssignConstrs P Xmap Zmap satellites pixels
    ++ detCapConstrs P Ymap Zmap vrSmall satellites pixels
    ++ detDemandConstrs P Zmap Wmap satellites pixels

theorem detBuild_constrs_eq (st : DetState) (sats : List Satellite) (pixels : List Pixel)
    (vr cS : String → String → Nat → ℚ) (cD : String → Nat → ℚ) :
    (detBuild st sats pixels vr cS cD).model.constrs
      = st.model.constrs ++ detBatch st.PERIODS st.model.numVars sats pixels vr := by
  simp [detBuild, detBatch, GRBModel.addConstrs, GRBModel.setObjective,
    GRBModel.addVars, GRBModel.reset, List.append_assoc]

/-- Number of solver variables one `Deterministic.build()` call creates. -/
def detVarCountN (P : Nat) (sats : List Satellite) (pixels : List Pixel) : Nat :=
  (detXKeys P sats).length + (detZKeys P sats pixels).length
    + (detWKeys P pixels).length + (detYKeys sats).length

theorem detBuild_numVars_eq (st : DetState) (sats : List Satellite) (pixels : List Pixel)
    (vr cS : String → String → Nat → ℚ) (cD : String → Nat → ℚ) :
    (detBuild st sats pixels vr cS cD).model.numVars
      = st.model.numVars + detVarCountN st.PERIODS sats pixels := by
  simp [detBuild, detVarCountN, GRBModel.addConstrs, GRBModel.setObjective,
    GRBModel.addVars, GRBModel.reset]
  omega

/-- The size of the appended constraint block does not depend on where
variable indices start. -/
theorem detBatch_length_indep (P n0 n1 : Nat) (sats : List Satellite) (pixels : List Pixel)
    (vr : String → String → Nat → ℚ) :
    (detBatch P n0 sats pixels vr).length = (detBatch P n1 sats pixels vr).length := by
  simp [detBatch, detOpenConstrs, detOperConstrs, detAssignConstrs, detCapConstrs,
    detDemandConstrs, List.length_append, List.length_flatMap, List.length_map,
    Function.comp_def]

theorem detBuild_PERIODS (st : DetState) (sats : List Satellite) (pixels : List Pixel)
    (vr cS : String → String → Nat → ℚ) (cD : String → Nat → ℚ) :
    (detBuild st sats pixels vr cS cD).PERIODS = st.PERIODS := rfl

/-- The constraint block one `SecondStage.build()` call appends. -/
def secBatch (P n0 : Nat) (Y : YParam) (satellites : List Satellite) (pixels : List Pixel)
    (vrSmall : String → String → Nat → ℚ) : List Constr :=
  let xKeys := secXKeys P Y satellites
  let Xmap := mkVarMap n0 xKeys
  let n1 := n0 + xKeys.length
  let zKeys := secZKeys P Y satellites pixels
  let Zmap := mkVarMap n1 zKeys
  let n2 := n1 + zKeys.length
  let Wmap := mkVarMap n2 (detWKeys P pixels)
  secAssignConstrs P Y Xmap Zmap satellites pixels
    ++ secDemandConstrs P Y Zmap Wmap satellites pixels
    ++ secCapConstrs P Y Zmap vrSmall satellites pixels

theorem secBuild_constrs_eq (st : SecState) (sats : List Satellite) (pixels : List Pixel)
    (vr cS : String → String → Nat → ℚ) (cD : String → Nat → ℚ) :
    (secBuild st sats pixels vr cS cD).model.constrs
      = st.model.constrs ++ secBatch st.PERIODS st.model.numVars st.Y sats pixels vr := by
  simp [secBuild, secBatch, GRBModel.addConstrs, GRBModel.setObjective,
    GRBModel.addVars, GRBModel.reset, List.append_assoc]

/-- Number of solver variables one `SecondStage.build()` call creates. -/
def secVarCountN (P : Nat) (Y : YParam) (sats : List Satellite) (pixels : List Pixel) : Nat :=
  (secXKeys P Y sats).length + (secZKeys P Y sats pixels).length
    + (detWKeys P pixels).length

theorem secBuild_numVars_eq (st : SecState) (sats : List Satellite) (pixels : List Pixel)
    (vr cS : String → String → Nat → ℚ) (cD : String → Nat → ℚ) :
    (secBuild st sats pixels vr cS cD).model.numVars
      = st.model.numVars + secVarCountN st.PERIODS st.Y sats pixels := by
  simp [secBuild, secVarCountN, GRBModel.addConstrs, GRBModel.setObjective,
    GRBModel.addVars, GRBModel.reset]
  omega

theorem secBatch_length_indep (P n0 n1 : Nat) (Y : YParam) (sats : List Satellite)
    (pixels : List Pixel) (vr : String → String → Nat → ℚ) :
    (secBatch P n0 Y sats pixels vr).length = (secBatch P n1 Y sats pixels vr).length := by
  simp [secBatch, secAssignConstrs, secDemandConstrs, secCapConstrs,
    List.length_append, List.length_flatMap, List.length_map,
    Function.comp_def, apply_ite List.length]

theorem secBuild_PERIODS (st : SecState) (sats : List Satellite) (pixels : List Pixel)
    (vr cS : String → String → Nat → ℚ) (cD : String → Nat → ℚ) :
    (secBuild st sats pixels vr cS cD).PERIODS = st.PERIODS := rfl

theorem secBuild_Y (st : SecState) (sats : List Satellite) (pixels : List Pixel)
    (vr cS : String → String → Nat → ℚ) (cD : String → Nat → ℚ) :
    (secBuild st sats pixels vr cS cD).Y = st.Y := rfl

/-! ## Claim C3: rebuilding -/

/-- A one-tier satellite used by the concrete model-layer scenarios. -/
def sat1 : Satellite :=
  { id := "1", cost_fixed := fun _ => 100, cost_operation := fun _ _ => 1,
    capacity_keys := ["q1"], capacity := fun _ => 10, cost_sourcing := 0 }

/-- A single demand pixel used by the concrete model-layer scenarios. -/
def pix1 : Pixel :=
  { id := "1", area_km := 1, demand_by_period := fun _ => 1,
    avg_drop := fun _ => 1, avg_stop := fun _ => 1,
    speed_intra_stop := fun _ => 1, k := 1 }

/-- **C3** counterexample: with one satellite (one tier), one pixel and one
period, the first `build()` leaves 4 variables; calling `build()` again on
the same instance with unchanged inputs leaves 8, not 4 — `model.reset()`
discards solution information only, it does not discard the previously
created variables and constraints, so the claimed equality of variable
counts after a second `build()` fails. -/
theorem C3_counterexample_second_build_doubles_variables :
    (detBuild (detBuild (detInit 1 "Deterministic-MultiPeriod") [sat1] [pix1]
        (fun _ _ _ => 1) (fun _ _ _ => 5) (fun _ _ => 7)) [sat1] [pix1]
        (fun _ _ _ => 1) (fun _ _ _ => 5) (fun _ _ => 7)).model.numVars = 8
  ∧ (detBuild (detInit 1 "Deterministic-MultiPeriod") [sat1] [pix1]
        (fun _ _ _ => 1) (fun _ _ _ => 5) (fun _ _ => 7)).model.numVars = 4
  ∧ (8 : Nat) ≠ 4 :=
  ⟨rfl, rfl, by decide⟩

/-- **C3** (amended): a second `build()` on unchanged inputs does not
discard the first build's work: for both stages it adds a fresh copy of
every variable and constraint, so the variable count and the constraint
count double, and the first build's constraints remain (as a prefix of the
constraint list); the objective is replaced. -/
theorem C3_second_build_doubles_counts_and_retains_constraints
    (P : Nat) (nameD nameS : String) (paramY : YParam)
    (sats : List Satellite) (pixels : List Pixel)
    (vr cS : String → String → Nat → ℚ) (cD : String → Nat → ℚ) :
    ((detBuild (detBuild (detInit P nameD) sats pixels vr cS cD) sats pixels vr cS cD).model.numVars
        = 2 * (detBuild (detInit P nameD) sats pixels vr cS cD).model.numVars
      ∧ (detBuild (detBuild (detInit P nameD) sats pixels vr cS cD) sats pixels vr cS cD).model.constrs.length
        = 2 * (detBuild (detInit P nameD) sats pixels vr cS cD).model.constrs.length
      ∧ (detBuild (detInit P nameD) sats pixels vr cS cD).model.constrs
        <+: (detBuild (detBuild (detInit P nameD) sats pixels vr cS cD) sats pixels vr cS cD).model.constrs)
  ∧ ((secBuild (secBuild (secInit P paramY nameS) sats pixels vr cS cD) sats pixels vr cS cD).model.numVars
        = 2 * (secBuild (secInit P paramY nameS) sats pixels vr cS cD).model.numVars
      ∧ (secBuild (secBuild (secInit P paramY nameS) sats pixels vr cS cD) sats pixels vr cS cD).model.constrs.length
        = 2 * (secBuild (secInit P paramY nameS) sats pixels vr cS cD).model.constrs.length
      ∧ (secBuild (secInit P paramY nameS) sats pixels vr cS cD).model.constrs
        <+: (secBuild (secBuild (secInit P paramY nameS) sats pixels vr cS cD) sats pixels vr cS cD).model.constrs) := by
  constructor
  · have eP1 : (detInit P nameD).PERIODS = P := rfl
    have eP2 : (detBuild (detInit P nameD) sats pixels vr cS cD).PERIODS = P := rfl
    have eN0 : (detInit P nameD).model.numVars = 0 := rfl
    have eC0 : (detInit P nameD).model.constrs = [] := rfl
    have hV1 := detBuild_numVars_eq (detInit P nameD) sats pixels vr cS cD
    have hV2 := detBuild_numVars_eq (detBuild (detInit P nameD) sats pixels vr cS cD)
      sats pixels vr cS cD
    rw [eP1, eN0] at hV1
    rw [eP2] at hV2
    have hC1 := detBuild_constrs_eq (detInit P nameD) sats pixels vr cS cD
    have hC2 := detBuild_constrs_eq (detBuild (detInit P nameD) sats pixels vr cS cD)
      sats pixels vr cS cD
    rw [eP1, eN0, eC0, List.nil_append] at hC1
    rw [eP2] at hC2
    refine ⟨by omega, ?_, ?_⟩
    · have l1 := congrArg List.length hC1
      have l2 := congrArg List.length hC2
      rw [List.length_append] at l2
      have lind := detBatch_length_indep P
        ((detBuild (detInit P nameD) sats pixels vr cS cD).model.numVars) 0 sats pixels vr
      omega
    · rw [hC2]
      exact List.prefix_append _ _
  · have eP1 : (secInit P paramY nameS).PERIODS = P := rfl
    have eP2 : (secBuild (secInit P paramY nameS) sats pixels vr cS cD).PERIODS = P := rfl
    have eY1 : (secInit P paramY nameS).Y = paramY := rfl
    have eY2 : (secBuild (secInit P paramY nameS) sats pixels vr cS cD).Y = paramY := rfl
    have eN0 : (secInit P paramY nameS).model.numVars = 0 := rfl
    have eC0 : (secInit P paramY nameS).model.constrs = [] := rfl
    have hV1 := secBuild_numVars_eq (secInit P paramY nameS) sats pixels vr cS cD
    have hV2 := secBuild_numVars_eq (secBuild (secInit P paramY nameS) sats pixels vr cS cD)
      sats pixels vr cS cD
    rw [eP1, eY1, eN0] at hV1
    rw [eP2, eY2] at hV2
    have hC1 := secBuild_constrs_eq (secInit P paramY nameS) sats pixels vr cS cD
    have hC2 := secBuild_constrs_eq (secBuild (secInit P paramY nameS) sats pixels vr cS cD)
      sats pixels vr cS cD
    rw [eP1, eY1, eN0, eC0, List.nil_append] at hC1
    rw [eP2, eY2] at hC2
    refine ⟨by omega, ?_, ?_⟩
    · have l1 := congrArg List.length hC1
      have l2 := congrArg List.length hC2
      rw [List.length_append] at l2
      have lind := secBatch_length_indep P
        ((secBuild (secInit P paramY nameS) sats pixels vr cS cD).model.numVars) 0
        paramY sats pixels vr
      omega
    · rw [hC2]
      exact List.prefix_append _ _

/-! ## Evaluating the accumulated cost expressions -/

theorem list_sum_map_flatMap {α β γ : Type} [AddCommMonoid γ] (l : List α)
    (f : α → List β) (g : β → γ) :
    ((l.flatMap f).map g).sum = (l.map fun a => ((f a).map g).sum).sum := by
  induction l with
  | nil => rfl
  | cons a l ih => simp [List.flatMap_cons, List.map_append, List.sum_append, ih]

theorem LinExpr.eval_add (e f : LinExpr) (v : Nat → ℚ) :
    (e.add f).eval v = e.eval v + f.eval v := by
  simp [LinExpr.add, LinExpr.eval, List.sum_append]
  ring

theorem detCostAlloc_eval (Ymap : VarMap (String × String)) (sats : List Satellite)
    (v : Nat → ℚ) :
    (detCostAlloc Ymap sats).eval v
      = (sats.map fun s => (s.capacity_keys.map fun q =>
          s.cost_fixed q * v (varOf Ymap (s.id, q))).sum).sum := by
  simp [detCostAlloc, LinExpr.eval, list_sum_map_flatMap, List.map_map, Function.comp_def]

theorem detCostOper_eval (P : Nat) (Xmap : VarMap (String × String × Nat))
    (sats : List Satellite) (v : Nat → ℚ) :
    (detCostOper P Xmap sats).eval v
      = (sats.map fun s => (s.capacity_keys.map fun q => ((List.range P).map fun t =>
          s.cost_operation q t * v (varOf Xmap (s.id, q, t))).sum).sum).sum := by
  simp [detCostOper, LinExpr.eval, list_sum_map_flatMap, List.map_map, Function.comp_def]

theorem detCostSat_eval (P : Nat) (Zmap : VarMap (String × String × Nat))
    (cS : String → String → Nat → ℚ) (sats : List Satellite) (pixels : List Pixel)
    (v : Nat → ℚ) :
    (detCostSat P Zmap cS sats pixels).eval v
      = (sats.map fun s => (pixels.map fun k => ((List.range P).map fun t =>
          cS s.id k.id t * v (varOf Zmap (s.id, k.id, t))).sum).sum).sum := by
  simp [detCostSat, LinExpr.eval, list_sum_map_flatMap, List.map_map, Function.comp_def]

theorem detCostDc_eval (P : Nat) (Wmap : VarMap (String × Nat))
    (cD : String → Nat → ℚ) (pixels : List Pixel) (v : Nat → ℚ) :
    (detCostDc P Wmap cD pixels).eval v
      = (pixels.map fun k => ((List.range P).map fun t =>
          cD k.id t * v (varOf Wmap (k.id, t))).sum).sum := by
  simp [detCostDc, LinExpr.eval, list_sum_map_flatMap, List.map_map, Function.comp_def]

/-- After `build()` the stored objective is the sum of the four accumulated
cost expressions, in the source's order `allocation + dc + satellite +
operating`. -/
theorem detBuild_objective_eq (st : DetState) (sats : List Satellite) (pixels : List Pixel)
    (vr cS : String → String → Nat → ℚ) (cD : String → Nat → ℚ) :
    (detBuild st sats pixels vr cS cD).model.objective
      = (((detCostAlloc (detBuild st sats pixels vr cS cD).Y sats).add
          (detCostDc st.PERIODS (detBuild st sats pixels vr cS cD).W cD pixels)).add
          (detCostSat st.PERIODS (detBuild st sats pixels vr cS cD).Z cS sats pixels)).add
          (detCostOper st.PERIODS (detBuild st sats pixels vr cS cD).X sats) := rfl

/-! ## Claim C5: the Stage-1 objective -/

/-- **C5**: the Stage-1 objective is minimized and equals, under every
variable assignment, the sum of exactly four cost components: tier
allocation `Σ cost_fixed[q]·Y[s,q]`, tier operation
`Σ cost_operation[q][t]·X[s,q,t]`, satellite service
`Σ costs["satellite"][(s,k,t)]["total"]·Z[s,k,t]` and DC service
`Σ costs["dc"][(k,t)]["total"]·W[k,t]`. -/
theorem C5_objective_is_sum_of_four_components (P : Nat) (name : String)
    (sats : List Satellite) (pixels : List Pixel)
    (vr cS : String → String → Nat → ℚ) (cD : String → Nat → ℚ) (v : Nat → ℚ) :
    (detBuild (detInit P name) sats pixels vr cS cD).model.minimize = true
  ∧ (detBuild (detInit P name) sats pixels vr cS cD).model.objective.eval v
      = (sats.map fun s => (s.capacity_keys.map fun q =>
          s.cost_fixed q * v (varOf (detBuild (detInit P name) sats pixels vr cS cD).Y (s.id, q))).sum).sum
      + (sats.map fun s => (s.capacity_keys.map fun q => ((List.range P).map fun t =>
          s.cost_operation q t * v (varOf (detBuild (detInit P name) sats pixels vr cS cD).X (s.id, q, t))).sum).sum).sum
      + (sats.map fun s => (pixels.map fun k => ((List.range P).map fun t =>
          cS s.id k.id t * v (varOf (detBuild (detInit P name) sats pixels vr cS cD).Z (s.id, k.id, t))).sum).sum).sum
      + (pixels.map fun k => ((List.range P).map fun t =>
          cD k.id t * v (varOf (detBuild (detInit P name) sats pixels vr cS cD).W (k.id, t))).sum).sum := by
  have eP : (detInit P name).PERIODS = P := rfl
  refine ⟨rfl, ?_⟩
  rw [detBuild_objective_eq, LinExpr.eval_add, LinExpr.eval_add, LinExpr.eval_add,
    detCostAlloc_eval, detCostOper_eval, detCostSat_eval, detCostDc_eval, eP]
  ring

/-! ## Claim C8: invariants of feasible Stage-1 solutions -/

theorem list_sum_map_neg {α : Type} (l : List α) (f : α → ℚ) :
    (l.map fun a => -(f a)).sum = -((l.map f).sum) := by
  induction l with
  | nil => simp
  | cons a l ih =>
    simp [List.map_cons, List.sum_cons, ih]
    ring

theorem mem_detOpenConstrs (Ymap : VarMap (String × String)) {sats : List Satellite}
    {s : Satellite} (hs : s ∈ sats) :
    mkOpenConstr Ymap s ∈ detOpenConstrs Ymap sats :=
  List.mem_map_of_mem _ hs

theorem mem_detOperConstrs {P : Nat} (Xmap : VarMap (String × String × Nat))
    (Ymap : VarMap (String × String)) {sats : List Satellite} {s : Satellite}
    {q : String} {t : Nat} (hs : s ∈ sats) (hq : q ∈ s.capacity_keys) (ht : t < P) :
    mkOperConstr Xmap Ymap s q t ∈ detOperConstrs P Xmap Ymap sats := by
  refine List.mem_flatMap.mpr ⟨t, List.mem_range.mpr ht, ?_⟩
  exact List.mem_flatMap.mpr ⟨s, hs, List.mem_map_of_mem _ hq⟩

theorem mem_detAssignConstrs {P : Nat} (Xmap Zmap : VarMap (String × String × Nat))
    {sats : List Satellite} {pixels : List Pixel} {s : Satellite} {k : Pixel}
    {t : Nat} (hs : s ∈ sats) (hk : k ∈ pixels) (ht : t < P) :
    mkAssignConstr Xmap Zmap s k t ∈ detAssignConstrs P Xmap Zmap sats pixels := by
  refine List.mem_flatMap.mpr ⟨t, List.mem_range.mpr ht, ?_⟩
  exact List.mem_flatMap.mpr ⟨k, hk, List.mem_map_of_mem _ hs⟩

theorem mem_detCapConstrs {P : Nat} (Ymap : VarMap (String × String))
    (Zmap : VarMap (String × String × Nat)) (vr : String → String → Nat → ℚ)
    {sats : List Satellite} (pixels : List Pixel) {s : Satellite} {t : Nat}
    (hs : s ∈ sats) (ht : t < P) :
    mkCapConstr Ymap Zmap vr pixels s t ∈ detCapConstrs P Ymap Zmap vr sats pixels := by
  refine List.mem_flatMap.mpr ⟨t, List.mem_range.mpr ht, ?_⟩
  exact List.mem_map_of_mem _ hs

theorem mem_detDemandConstrs {P : Nat} (Zmap : VarMap (String × String × Nat))
    (Wmap : VarMap (String × Nat)) (sats : List Satellite) {pixels : List Pixel}
    {k : Pixel} {t : Nat} (hk : k ∈ pixels) (ht : t < P) :
    mkDemandConstr Zmap Wmap sats k t ∈ detDemandConstrs P Zmap Wmap sats pixels := by
  refine List.mem_flatMap.mpr ⟨t, List.mem_range.mpr ht, ?_⟩
  exact List.mem_map_of_mem _ hk

theorem mkOpenConstr_sat (Ymap : VarMap (String × String)) (s : Satellite) (v : Nat → ℚ)
    (h : (mkOpenConstr Ymap s).sat v) :
    (s.capacity_keys.map fun q => v (varOf Ymap (s.id, q))).sum ≤ 1 := by
  simpa [mkOpenConstr, Constr.sat, LinExpr.eval, List.map_map, Function.comp_def] using h

theorem mkOperConstr_sat (Xmap : VarMap (String × String × Nat))
    (Ymap : VarMap (String × String)) (s : Satellite) (q : String) (t : Nat)
    (v : Nat → ℚ) (h : (mkOperConstr Xmap Ymap s q t).sat v) :
    v (varOf Xmap (s.id, q, t)) ≤ v (varOf Ymap (s.id, q)) := by
  simp [mkOperConstr, Constr.sat, LinExpr.eval] at h
  linarith

theorem mkAssignConstr_sat (Xmap Zmap : VarMap (String × String × Nat))
    (s : Satellite) (k : Pixel) (t : Nat) (v : Nat → ℚ)
    (h : (mkAssignConstr Xmap Zmap s k t).sat v) :
    v (varOf Zmap (s.id, k.id, t))
      ≤ (s.capacity_keys.map fun q => v (varOf Xmap (s.id, q, t))).sum := by
  simp [mkAssignConstr, Constr.sat, LinExpr.eval, List.map_map, Function.comp_def,
    neg_mul, list_sum_map_neg] at h
  linarith

theorem mkCapConstr_sat (Ymap : VarMap (String × String))
    (Zmap : VarMap (String × String × Nat)) (vr : String → String → Nat → ℚ)
    (pixels : List Pixel) (s : Satellite) (t : Nat) (v : Nat → ℚ)
    (h : (mkCapConstr Ymap Zmap vr pixels s t).sat v) :
    (pixels.map fun k => vr s.id k.id t * v (varOf Zmap (s.id, k.id, t))).sum
      ≤ (s.capacity_keys.map fun q => s.capacity q * v (varOf Ymap (s.id, q))).sum := by
  simp [mkCapConstr, Constr.sat, LinExpr.eval, List.map_map, Function.comp_def,
    List.map_append, List.sum_append, neg_mul, list_sum_map_neg] at h
  linarith

theorem mkDemandConstr_sat (Zmap : VarMap (String × String × Nat))
    (Wmap : VarMap (String × Nat)) (sats : List Satellite) (k : Pixel) (t : Nat)
    (v : Nat → ℚ) (h : (mkDemandConstr Zmap Wmap sats k t).sat v) :
    (sats.map fun s => v (varOf Zmap (s.id, k.id, t))).sum
      + v (varOf Wmap (k.id, t)) = 1 := by
  simpa [mkDemandConstr, Constr.sat, LinExpr.eval, List.map_map, Function.comp_def,
    List.map_append, List.sum_append] using h

/-- The constraint list a first `build()` leaves is exactly the five
families over the created variable dicts. -/
theorem detBuild_constrs_shape (P : Nat) (name : String) (sats : List Satellite)
    (pixels : List Pixel) (vr cS : String → String → Nat → ℚ) (cD : String → Nat → ℚ) :
    (detBuild (detInit P name) sats pixels vr cS cD).model.constrs
      = detOpenConstrs (detBuild (detInit P name) sats pixels vr cS cD).Y sats
        ++ detOperConstrs P (detBuild (detInit P name) sats pixels vr cS cD).X
            (detBuild (detInit P name) sats pixels vr cS cD).Y sats
        ++ detAssignConstrs P (detBuild (detInit P name) sats pixels vr cS cD).X
            (detBuild (detInit P name) sats pixels vr cS cD).Z sats pixels
        ++ detCapConstrs P (detBuild (detInit P name) sats pixels vr cS cD).Y
            (detBuild (detInit P name) sats pixels vr cS cD).Z vr sats pixels
        ++ detDemandConstrs P (detBuild (detInit P name) sats pixels vr cS cD).Z
            (detBuild (detInit P name) sats pixels vr cS cD).W sats pixels := rfl

/-- **C8**: every assignment satisfying all constraints of a freshly built
Stage-1 model obeys, for each satellite `s`, tier `q`, pixel `k`, period
`t < P`: tier exclusivity `Σ_q Y ≤ 1`; `X[s,q,t] ≤ Y[s,q]`;
`Z[s,k,t] ≤ Σ_q X[s,q,t]`; the capacity bound
`Σ_k fleet_required·Z ≤ Σ_q capacity·Y`; and exact coverage
`Σ_s Z[s,k,t] + W[k,t] = 1`. -/
theorem C8_stage1_feasible_solution_invariants (P : Nat) (name : String)
    (sats : List Satellite) (pixels : List Pixel)
    (vr cS : String → String → Nat → ℚ) (cD : String → Nat → ℚ)
    (st : DetState) (hst : st = detBuild (detInit P name) sats pixels vr cS cD)
    (v : Nat → ℚ) (hfeas : ∀ c ∈ st.model.constrs, c.sat v) :
    (∀ s ∈ sats,
        ((s.capacity_keys.map fun q => v (varOf st.Y (s.id, q))).sum ≤ 1)
      ∧ (∀ q ∈ s.capacity_keys, ∀ t, t < P →
          v (varOf st.X (s.id, q, t)) ≤ v (varOf st.Y (s.id, q)))
      ∧ (∀ k ∈ pixels, ∀ t, t < P →
          v (varOf st.Z (s.id, k.id, t))
            ≤ (s.capacity_keys.map fun q => v (varOf st.X (s.id, q, t))).sum)
      ∧ (∀ t, t < P →
          (pixels.map fun k => vr s.id k.id t * v (varOf st.Z (s.id, k.id, t))).sum
            ≤ (s.capacity_keys.map fun q => s.capacity q * v (varOf st.Y (s.id, q))).sum))
  ∧ (∀ k ∈ pixels, ∀ t, t < P →
      (sats.map fun s => v (varOf st.Z (s.id, k.id, t))).sum
        + v (varOf st.W (k.id, t)) = 1) := by
  subst hst
  have hshape := detBuild_constrs_shape P name sats pixels vr cS cD
  rw [hshape] at hfeas
  have hOpen : ∀ c ∈ detOpenConstrs
      (detBuild (detInit P name) sats pixels vr cS cD).Y sats, c.sat v := fun c hc =>
    hfeas c (List.mem_append_left _ (List.mem_append_left _ (List.mem_append_left _
      (List.mem_append_left _ hc))))
  have hOper : ∀ c ∈ detOperConstrs P
      (detBuild (detInit P name) sats pixels vr cS cD).X
      (detBuild (detInit P name) sats pixels vr cS cD).Y sats, c.sat v := fun c hc =>
    hfeas c (List.mem_append_left _ (List.mem_append_left _ (List.mem_append_left _
      (List.mem_append_right _ hc))))
  have hAssign : ∀ c ∈ detAssignConstrs P
      (detBuild (detInit P name) sats pixels vr cS cD).X
      (detBuild (detInit P name) sats pixels vr cS cD).Z sats pixels, c.sat v := fun c hc =>
    hfeas c (List.mem_append_left _ (List.mem_append_left _ (List.mem_append_right _ hc)))
  have hCap : ∀ c ∈ detCapConstrs P
      (detBuild (detInit P name) sats pixels vr cS cD).Y
      (detBuild (detInit P name) sats pixels vr cS cD).Z vr sats pixels, c.sat v := fun c hc =>
    hfeas c (List.mem_append_left _ (List.mem_append_right _ hc))
  have hDemand : ∀ c ∈ detDemandConstrs P
      (detBuild (detInit P name) sats pixels vr cS cD).Z
      (detBuild (detInit P name) sats pixels vr cS cD).W sats pixels, c.sat v := fun c hc =>
    hfeas c (List.mem_append_right _ hc)
  refine ⟨fun s hs => ⟨?_, ?_, ?_, ?_⟩, fun k hk t ht => ?_⟩
  · exact mkOpenConstr_sat _ s v (hOpen _ (mem_detOpenConstrs _ hs))
  · exact fun q hq t ht =>
      mkOperConstr_sat _ _ s q t v (hOper _ (mem_detOperConstrs _ _ hs hq ht))
  · exact fun k hk t ht =>
      mkAssignConstr_sat _ _ s k t v (hAssign _ (mem_detAssignConstrs _ _ hs hk ht))
  · exact fun t ht =>
      mkCapConstr_sat _ _ vr pixels s t v (hCap _ (mem_detCapConstrs _ _ vr pixels hs ht))
  · exact mkDemandConstr_sat _ _ sats k t v (hDemand _ (mem_detDemandConstrs _ _ sats hk ht))

/-- Witness for `C8_stage1_feasible_solution_invariants`: the one-satellite,
one-pixel, one-period model of `sat1`/`pix1`, with the assignment that
serves the pixel from the DC (`W = 1`, everything else `0`), which satisfies
all five constraints; the coverage law is exhibited. -/
theorem C8_stage1_feasible_solution_invariants_witness :
    ([sat1].map fun s => (fun i : Nat => if i = 2 then (1 : ℚ) else 0)
        (varOf (detBuild (detInit 1 "m") [sat1] [pix1]
          (fun _ _ _ => 1) (fun _ _ _ => 5) (fun _ _ => 7)).Z (s.id, pix1.id, 0))).sum
      + (fun i : Nat => if i = 2 then (1 : ℚ) else 0)
        (varOf (detBuild (detInit 1 "m") [sat1] [pix1]
          (fun _ _ _ => 1) (fun _ _ _ => 5) (fun _ _ => 7)).W (pix1.id, 0)) = 1 := by
  have hfeas : ∀ c ∈ (detBuild (detInit 1 "m") [sat1] [pix1]
      (fun _ _ _ => 1) (fun _ _ _ => 5) (fun _ _ => 7)).model.constrs,
      c.sat (fun i : Nat => if i = 2 then (1 : ℚ) else 0) := by
    intro c hc
    simp [detBuild, detInit, GRBModel.new, GRBModel.reset, GRBModel.addVars,
      GRBModel.addConstrs, GRBModel.setObjective, detOpenConstrs, detOperConstrs,
      detAssignConstrs, detCapConstrs, detDemandConstrs, detXKeys, detZKeys,
      detWKeys, detYKeys, sat1, pix1, List.range_succ] at hc
    rcases hc with h | h | h | h | h <;> subst h <;>
      norm_num [Constr.sat, LinExpr.eval, mkOpenConstr, mkOperConstr, mkAssignConstr,
        mkCapConstr, mkDemandConstr, varOf, dictGet, mkVarMap, List.enumFrom, sat1, pix1]
  exact (C8_stage1_feasible_solution_invariants 1 "m" [sat1] [pix1]
      (fun _ _ _ => 1) (fun _ _ _ => 5) (fun _ _ => 7) _ rfl
      (fun i : Nat => if i = 2 then (1 : ℚ) else 0) hfeas).2
    pix1 (List.mem_singleton_self pix1) 0 (by norm_num)

/-! ## Claim C4: Stage-2 sparsity -/

theorem list_flatMap_congr {α β : Type} {l : List α} {f g : α → List β}
    (h : ∀ a ∈ l, f a = g a) : l.flatMap f = l.flatMap g := by
  induction l with
  | nil => rfl
  | cons a l ih =>
    simp only [List.flatMap_cons]
    rw [h a (List.mem_cons_self a l), ih fun a ha => h a (List.mem_cons_of_mem _ ha)]

theorem list_flatMap_nil_fun {α β : Type} (l : List α) :
    (l.flatMap fun _ => ([] : List β)) = [] := by
  induction l with
  | nil => rfl
  | cons a l ih => simp [List.flatMap_cons, ih]

/-- Dropping the elements on which the generator is empty leaves a
comprehension unchanged. -/
theorem list_flatMap_filter {α β : Type} (l : List α) (p : α → Bool) (f : α → List β)
    (h : ∀ a ∈ l, p a = false → f a = []) :
    l.flatMap f = (l.filter p).flatMap f := by
  induction l with
  | nil => rfl
  | cons a l ih =>
    have ih' := ih fun a ha hp => h a (List.mem_cons_of_mem _ ha) hp
    simp only [List.flatMap_cons, List.filter_cons]
    cases hp : p a with
    | false => rw [h a (List.mem_cons_self a l) hp, ih']; simp
    | true => simp [List.flatMap_cons, ih']

theorem list_sum_nonpos {α : Type} (l : List α) (f : α → ℚ)
    (h : ∀ a ∈ l, f a ≤ 0) : (l.map f).sum ≤ 0 := by
  induction l with
  | nil => simp
  | cons a l ih =>
    have := h a (List.mem_cons_self a l)
    have := ih fun a ha => h a (List.mem_cons_of_mem _ ha)
    simp only [List.map_cons, List.sum_cons]
    linarith

theorem mkVarMap_fst_mem {κ : Type} {n : Nat} {keys : List κ}
    {kv : κ × Nat} (h : kv ∈ mkVarMap n keys) : kv.1 ∈ keys := by
  induction keys generalizing n with
  | nil => simp [mkVarMap] at h
  | cons a l ih =>
    simp only [mkVarMap, List.enumFrom, List.map_cons, List.mem_cons] at h
    rcases h with h | h
    · simp [h]
    · exact List.mem_cons_of_mem _ (ih (n := n + 1) h)

/-- A Stage-2 `X` key exists only where the fixed `Y` entry is positive. -/
theorem secXKeys_pos {P : Nat} {Y : YParam} {sats : List Satellite}
    {key : String × String × Nat} (h : key ∈ secXKeys P Y sats) :
    0 < yval Y (key.1, key.2.1) := by
  simp only [secXKeys, List.mem_flatMap, List.mem_range] at h
  obtain ⟨s, hs, q, hq, t, ht, hkey⟩ := h
  by_cases hpos : 0 < yval Y (s.id, q)
  · rw [if_pos hpos] at hkey
    simp at hkey
    subst hkey
    exact hpos
  · rw [if_neg hpos] at hkey
    simp at hkey

/-- A Stage-2 `Z` key exists only for a satellite with a positive `Y` entry. -/
theorem secZKeys_open {P : Nat} {Y : YParam} {sats : List Satellite}
    {pixels : List Pixel} {key : String × String × Nat}
    (h : key ∈ secZKeys P Y sats pixels) :
    ∃ s ∈ sats, s.id = key.1 ∧ ∃ q ∈ s.capacity_keys, 0 < yval Y (s.id, q) := by
  simp only [secZKeys, List.mem_flatMap, List.mem_range] at h
  obtain ⟨s, hs, k, hk, t, ht, hkey⟩ := h
  by_cases hpos : 0 < sumYs Y s
  · rw [if_pos hpos] at hkey
    simp at hkey
    refine ⟨s, hs, by simp [hkey], ?_⟩
    by_contra hall
    push_neg at hall
    have : sumYs Y s ≤ 0 := list_sum_nonpos _ _ fun q hq => hall q hq
    linarith
  · rw [if_neg hpos] at hkey
    simp at hkey

/-- `sum([self.Y[(s.id, q)] ...]) > 0` fails exactly on the satellites the
Stage-2 comprehensions skip; this decides "open" for the filter form below. -/
def openB (Y : YParam) (s : Satellite) : Bool :=
  s.capacity_keys.any fun q => decide (0 < yval Y (s.id, q))

theorem closed_entries {Y : YParam} {s : Satellite} (hp : openB Y s = false) :
    ∀ q ∈ s.capacity_keys, yval Y (s.id, q) ≤ 0 := by
  intro q hq
  have := List.any_eq_false.mp hp q hq
  simpa using this

theorem closed_sumYs {Y : YParam} {s : Satellite} (hp : openB Y s = false) :
    sumYs Y s ≤ 0 :=
  list_sum_nonpos _ _ (closed_entries hp)

theorem secXKeys_filter (P : Nat) (Y : YParam) (sats : List Satellite) :
    secXKeys P Y sats = secXKeys P Y (sats.filter (openB Y)) := by
  unfold secXKeys
  apply list_flatMap_filter
  intro s hs hp
  have hall := closed_entries hp
  refine Eq.trans (list_flatMap_congr fun q hq => ?_) (list_flatMap_nil_fun _)
  have : ¬ 0 < yval Y (s.id, q) := by have := hall q hq; linarith
  refine Eq.trans (list_flatMap_congr fun t ht => if_neg this) (list_flatMap_nil_fun _)

theorem secZKeys_filter (P : Nat) (Y : YParam) (sats : List Satellite) (pixels : List Pixel) :
    secZKeys P Y sats pixels = secZKeys P Y (sats.filter (openB Y)) pixels := by
  unfold secZKeys
  apply list_flatMap_filter
  intro s hs hp
  have hsum : ¬ 0 < sumYs Y s := by have := closed_sumYs hp; linarith
  refine Eq.trans (list_flatMap_congr fun k hk => ?_) (list_flatMap_nil_fun _)
  refine Eq.trans (list_flatMap_congr fun t ht => if_neg hsum) (list_flatMap_nil_fun _)

theorem secCostAllocC_filter (Y : YParam) (sats : List Satellite) :
    secCostAllocC Y sats = secCostAllocC Y (sats.filter (openB Y)) := by
  unfold secCostAllocC
  congr 1
  apply list_flatMap_filter
  intro s hs hp
  have hall := closed_entries hp
  refine Eq.trans (list_flatMap_congr fun q hq => ?_) (list_flatMap_nil_fun _)
  have : ¬ 0 < yval Y (s.id, q) := by have := hall q hq; linarith
  exact if_neg this

theorem secCostOper_filter (P : Nat) (Y : YParam) (Xmap : VarMap (String × String × Nat))
    (sats : List Satellite) :
    secCostOper P Y Xmap sats = secCostOper P Y Xmap (sats.filter (openB Y)) := by
  unfold secCostOper
  congr 1
  apply list_flatMap_filter
  intro s hs hp
  have hall := closed_entries hp
  refine Eq.trans (list_flatMap_congr fun q hq => ?_) (list_flatMap_nil_fun _)
  have : ¬ 0 < yval Y (s.id, q) := by have := hall q hq; linarith
  refine Eq.trans (list_flatMap_congr fun t ht => if_neg this) (list_flatMap_nil_fun _)

theorem secCostSat_filter (P : Nat) (Y : YParam) (Zmap : VarMap (String × String × Nat))
    (cS : String → String → Nat → ℚ) (sats : List Satellite) (pixels : List Pixel) :
    secCostSat P Y Zmap cS sats pixels
      = secCostSat P Y Zmap cS (sats.filter (openB Y)) pixels := by
  unfold secCostSat
  congr 1
  apply list_flatMap_filter
  intro s hs hp
  have hsum : ¬ 0 < sumYs Y s := by have := closed_sumYs hp; linarith
  refine Eq.trans (list_flatMap_congr fun k hk => ?_) (list_flatMap_nil_fun _)
  refine Eq.trans (list_flatMap_congr fun t ht => if_neg hsum) (list_flatMap_nil_fun _)

theorem secAssignConstrs_filter (P : Nat) (Y : YParam)
    (Xmap Zmap : VarMap (String × String × Nat)) (sats : List Satellite)
    (pixels : List Pixel) :
    secAssignConstrs P Y Xmap Zmap sats pixels
      = secAssignConstrs P Y Xmap Zmap (sats.filter (openB Y)) pixels := by
  unfold secAssignConstrs
  refine list_flatMap_congr fun t ht => list_flatMap_congr fun k hk => ?_
  apply list_flatMap_filter
  intro s hs hp
  have hsum : ¬ 0 < sumYs Y s := by have := closed_sumYs hp; linarith
  exact if_neg hsum

theorem secDemandConstrs_filter (P : Nat) (Y : YParam)
    (Zmap : VarMap (String × String × Nat)) (Wmap : VarMap (String × Nat))
    (sats : List Satellite) (pixels : List Pixel) :
    secDemandConstrs P Y Zmap Wmap sats pixels
      = secDemandConstrs P Y Zmap Wmap (sats.filter (openB Y)) pixels := by
  unfold secDemandConstrs
  refine list_flatMap_congr fun t ht => List.map_congr_left fun k hk => ?_
  have : (sats.flatMap fun s =>
      if 0 < sumYs Y s then [((1 : ℚ), varOf Zmap (s.id, k.id, t))] else [])
    = ((sats.filter (openB Y)).flatMap fun s =>
      if 0 < sumYs Y s then [((1 : ℚ), varOf Zmap (s.id, k.id, t))] else []) := by
    apply list_flatMap_filter
    intro s hs hp
    have hsum : ¬ 0 < sumYs Y s := by have := closed_sumYs hp; linarith
    exact if_neg hsum
  rw [this]

theorem secCapConstrs_filter (P : Nat) (Y : YParam)
    (Zmap : VarMap (String × String × Nat)) (vr : String → String → Nat → ℚ)
    (sats : List Satellite) (pixels : List Pixel) :
    secCapConstrs P Y Zmap vr sats pixels
      = secCapConstrs P Y Zmap vr (sats.filter (openB Y)) pixels := by
  unfold secCapConstrs
  refine list_flatMap_congr fun t ht => ?_
  apply list_flatMap_filter
  intro s hs hp
  have hsum : ¬ 0 < sumYs Y s := by have := closed_sumYs hp; linarith
  exact if_neg hsum

/-- Building Stage 2 over all satellites produces exactly the state obtained
by building over the open satellites only: closed satellites contribute no
variable, no constraint and no cost term. -/
theorem secBuild_filter_closed (P : Nat) (name : String) (paramY : YParam)
    (sats : List Satellite) (pixels : List Pixel)
    (vr cS : String → String → Nat → ℚ) (cD : String → Nat → ℚ) :
    secBuild (secInit P paramY name) sats pixels vr cS cD
      = secBuild (secInit P paramY name) (sats.filter (openB paramY)) pixels vr cS cD := by
  simp only [secBuild, secInit]
  rw [← secXKeys_filter, ← secZKeys_filter, ← secCostAllocC_filter, ← secCostOper_filter,
    ← secCostSat_filter, ← secAssignConstrs_filter, ← secDemandConstrs_filter,
    ← secCapConstrs_filter]

theorem secBuild_X_eq (P : Nat) (name : String) (paramY : YParam)
    (sats : List Satellite) (pixels : List Pixel)
    (vr cS : String → String → Nat → ℚ) (cD : String → Nat → ℚ) :
    (secBuild (secInit P paramY name) sats pixels vr cS cD).X
      = mkVarMap 0 (secXKeys P paramY sats) := rfl

theorem secBuild_Z_eq (P : Nat) (name : String) (paramY : YParam)
    (sats : List Satellite) (pixels : List Pixel)
    (vr cS : String → String → Nat → ℚ) (cD : String → Nat → ℚ) :
    (secBuild (secInit P paramY name) sats pixels vr cS cD).Z
      = mkVarMap (0 + (secXKeys P paramY sats).length)
          (secZKeys P paramY sats pixels) := rfl

/-- **C4**: Stage-2 pruning.  (1) every `X` dict entry has a positive fixed
`Y` value at its (satellite, tier); (2) every `Z` dict entry belongs to a
satellite with some positive `Y` entry; (3) a satellite id whose `Y` entries
are all non-positive indexes no `X` and no `Z` entry; (4) the whole built
state — variables, constraints, objective, costs — equals the state built
with the closed satellites removed, so no assignment or capacity constraint
is created for them. -/
theorem C4_stage2_variable_and_constraint_pruning (P : Nat) (name : String)
    (paramY : YParam) (sats : List Satellite) (pixels : List Pixel)
    (vr cS : String → String → Nat → ℚ) (cD : String → Nat → ℚ)
    (st : SecState) (hst : st = secBuild (secInit P paramY name) sats pixels vr cS cD) :
    (∀ kv ∈ st.X, 0 < yval paramY (kv.1.1, kv.1.2.1))
  ∧ (∀ kv ∈ st.Z, ∃ s ∈ sats, s.id = kv.1.1 ∧ ∃ q ∈ s.capacity_keys,
      0 < yval paramY (s.id, q))
  ∧ (∀ sid : String, (∀ q : String, yval paramY (sid, q) ≤ 0) →
      (∀ kv ∈ st.X, kv.1.1 ≠ sid) ∧ (∀ kv ∈ st.Z, kv.1.1 ≠ sid))
  ∧ st = secBuild (secInit P paramY name) (sats.filter (openB paramY)) pixels vr cS cD := by
  subst hst
  have hX : ∀ kv ∈ (secBuild (secInit P paramY name) sats pixels vr cS cD).X,
      0 < yval paramY (kv.1.1, kv.1.2.1) := by
    intro kv hkv
    rw [secBuild_X_eq] at hkv
    exact secXKeys_pos (mkVarMap_fst_mem hkv)
  have hZ : ∀ kv ∈ (secBuild (secInit P paramY name) sats pixels vr cS cD).Z,
      ∃ s ∈ sats, s.id = kv.1.1 ∧ ∃ q ∈ s.capacity_keys, 0 < yval paramY (s.id, q) := by
    intro kv hkv
    rw [secBuild_Z_eq] at hkv
    exact secZKeys_open (mkVarMap_fst_mem hkv)
  refine ⟨hX, hZ, ?_, secBuild_filter_closed P name paramY sats pixels vr cS cD⟩
  intro sid hall
  constructor
  · intro kv hkv heq
    have := hX kv hkv
    rw [heq] at this
    have := hall kv.1.2.1
    linarith
  · intro kv hkv heq
    obtain ⟨s, hs, hid, q, hq, hpos⟩ := hZ kv hkv
    rw [heq] at hid
    have := hall q
    rw [hid] at hpos
    linarith

/-- Witness for `C4_stage2_variable_and_constraint_pruning`: with the fixed
mapping `{("1","q1"): 0}` every `Y` entry of satellite id `"1"` is
non-positive, and the built Stage-2 model has no `X` or `Z` entry for it. -/
theorem C4_stage2_variable_and_constraint_pruning_witness :
    (∀ kv ∈ (secBuild (secInit 1 [(("1", "q1"), 0)] "s") [sat1] [pix1]
        (fun _ _ _ => 1) (fun _ _ _ => 5) (fun _ _ => 7)).X, kv.1.1 ≠ "1")
  ∧ (∀ kv ∈ (secBuild (secInit 1 [(("1", "q1"), 0)] "s") [sat1] [pix1]
        (fun _ _ _ => 1) (fun _ _ _ => 5) (fun _ _ => 7)).Z, kv.1.1 ≠ "1") :=
  (C4_stage2_variable_and_constraint_pruning 1 "s" [(("1", "q1"), 0)] [sat1] [pix1]
      (fun _ _ _ => 1) (fun _ _ _ => 5) (fun _ _ => 7) _ rfl).2.2.1 "1"
    (by
      intro q
      by_cases hq : ("1", q) = (("1", "q1") : String × String) <;>
        simp [yval, dictGet, hq])

/-! ## Claim C6: Stage-2 constraint families -/

/-- The constraint list a first Stage-2 `build()` leaves: assign, demand,
capacity — and nothing else. -/
theorem secBuild_constrs_shape (P : Nat) (name : String) (paramY : YParam)
    (sats : List Satellite) (pixels : List Pixel)
    (vr cS : String → String → Nat → ℚ) (cD : String → Nat → ℚ) :
    (secBuild (secInit P paramY name) sats pixels vr cS cD).model.constrs
      = secAssignConstrs P paramY
          (secBuild (secInit P paramY name) sats pixels vr cS cD).X
          (secBuild (secInit P paramY name) sats pixels vr cS cD).Z sats pixels
        ++ secDemandConstrs P paramY
          (secBuild (secInit P paramY name) sats pixels vr cS cD).Z
          (secBuild (secInit P paramY name) sats pixels vr cS cD).W sats pixels
        ++ secCapConstrs P paramY
          (secBuild (secInit P paramY name) sats pixels vr cS cD).Z vr sats pixels := rfl

/-- **C6** counterexample: at a one-satellite, one-tier, one-pixel,
one-period instance with the satellite open (`Y = 1`), Stage 1 adds the five
families — including the tier-exclusivity constraint `R_Open_s1` and the
operate-implies-selected constraint `R_Operating_s1_qq1_t0` — while Stage-2's
`build()` adds only `R_Assign`, `R_demand` and `R_capacity` constraints:
the tier-exclusivity and operate-implies-selected families are not added by
Stage 2, so "every constraint family present in Stage 1 is also added by
Stage-2's build()" fails. -/
theorem C6_counterexample_stage2_omits_two_families :
    ((detBuild (detInit 1 "m") [sat1] [pix1]
        (fun _ _ _ => 1) (fun _ _ _ => 5) (fun _ _ => 7)).model.constrs.map
          fun c => c.name)
      = ["R_Open_s1", "R_Operating_s1_qq1_t0", "R_Assign_s1_k1_t0",
         "R_capacity_s1_t0", "R_demand_k1_t0"]
  ∧ ((secBuild (secInit 1 [(("1", "q1"), 1)] "s") [sat1] [pix1]
        (fun _ _ _ => 1) (fun _ _ _ => 5) (fun _ _ => 7)).model.constrs.map
          fun c => c.name)
      = ["R_Assign_s1_k1_t0", "R_demand_k1_t0", "R_capacity_s1_t0"]
  ∧ "R_Open_s1" ∈ ["R_Open_s1", "R_Operating_s1_qq1_t0", "R_Assign_s1_k1_t0",
         "R_capacity_s1_t0", "R_demand_k1_t0"]
  ∧ "R_Open_s1" ∉ ["R_Assign_s1_k1_t0", "R_demand_k1_t0", "R_capacity_s1_t0"]
  ∧ "R_Operating_s1_qq1_t0" ∉ ["R_Assign_s1_k1_t0", "R_demand_k1_t0",
         "R_capacity_s1_t0"] := by
  refine ⟨rfl, ?_, by decide, by decide, by decide⟩
  norm_num [secBuild, secInit, GRBModel.new, GRBModel.reset, GRBModel.addVars,
    GRBModel.addConstrs, GRBModel.setObjective, secAssignConstrs, secDemandConstrs,
    secCapConstrs, secXKeys, secZKeys, detWKeys, sumYs, yval, dictGet, sat1, pix1,
    List.range_succ]
  decide

/-- **C6** (amended): Stage-2's `build()` adds the assign-implies-operating,
demand-coverage and capacity families, restricted to satellites with a
positive summed `Y` and with the fixed `Y` values entering directly (the `X`
sum keeps only tiers with `Y[(s,q)] > 0`; the capacity right-hand side is
the plain number `Σ Y[(s,q)]·capacity[q]`); every constraint of the built
model belongs to one of these three families — the tier-exclusivity and
operate-implies-selected families of Stage 1 are not added. -/
theorem C6_stage2_constraint_families (P : Nat) (name : String) (paramY : YParam)
    (sats : List Satellite) (pixels : List Pixel)
    (vr cS : String → String → Nat → ℚ) (cD : String → Nat → ℚ)
    (st : SecState) (hst : st = secBuild (secInit P paramY name) sats pixels vr cS cD) :
    (∀ s ∈ sats, 0 < sumYs paramY s → ∀ k ∈ pixels, ∀ t, t < P →
      ({ name := "R_Assign_s" ++ s.id ++ "_k" ++ k.id ++ "_t" ++ toString t,
         lhs := ⟨((1 : ℚ), varOf st.Z (s.id, k.id, t)) ::
           (s.capacity_keys.flatMap fun q =>
             if 0 < yval paramY (s.id, q) then
               [((-1 : ℚ), varOf st.X (s.id, q, t))] else []), 0⟩,
         sense := .le, rhs := 0 } : Constr) ∈ st.model.constrs)
  ∧ (∀ k ∈ pixels, ∀ t, t < P →
      ({ name := "R_demand_k" ++ k.id ++ "_t" ++ toString t,
         lhs := ⟨(sats.flatMap fun s =>
           if 0 < sumYs paramY s then [((1 : ℚ), varOf st.Z (s.id, k.id, t))] else []) ++
           [((1 : ℚ), varOf st.W (k.id, t))], 0⟩,
         sense := .eq, rhs := 1 } : Constr) ∈ st.model.constrs)
  ∧ (∀ s ∈ sats, 0 < sumYs paramY s → ∀ t, t < P →
      ({ name := "R_capacity_s" ++ s.id ++ "_t" ++ toString t,
         lhs := ⟨pixels.flatMap fun k =>
           if 0 < sumYs paramY s then
             [(vr s.id k.id t, varOf st.Z (s.id, k.id, t))] else [], 0⟩,
         sense := .le,
         rhs := (s.capacity_keys.flatMap fun q =>
           if 0 < yval paramY (s.id, q) then
             [yval paramY (s.id, q) * s.capacity q] else []).sum } : Constr)
        ∈ st.model.constrs)
  ∧ (∀ c ∈ st.model.constrs,
      c ∈ secAssignConstrs P paramY st.X st.Z sats pixels
    ∨ c ∈ secDemandConstrs P paramY st.Z st.W sats pixels
    ∨ c ∈ secCapConstrs P paramY st.Z vr sats pixels) := by
  subst hst
  refine ⟨?_, ?_, ?_, ?_⟩
  · intro s hs hopen k hk t ht
    rw [secBuild_constrs_shape]
    refine List.mem_append_left _ (List.mem_append_left _ ?_)
    refine List.mem_flatMap.mpr ⟨t, List.mem_range.mpr ht, ?_⟩
    refine List.mem_flatMap.mpr ⟨k, hk, ?_⟩
    refine List.mem_flatMap.mpr ⟨s, hs, ?_⟩
    rw [if_pos hopen]
    exact List.mem_singleton.mpr rfl
  · intro k hk t ht
    rw [secBuild_constrs_shape]
    refine List.mem_append_left _ (List.mem_append_right _ ?_)
    refine List.mem_flatMap.mpr ⟨t, List.mem_range.mpr ht, ?_⟩
    exact List.mem_map_of_mem _ hk
  · intro s hs hopen t ht
    rw [secBuild_constrs_shape]
    refine List.mem_append_right _ ?_
    refine List.mem_flatMap.mpr ⟨t, List.mem_range.mpr ht, ?_⟩
    refine List.mem_flatMap.mpr ⟨s, hs, ?_⟩
    rw [if_pos hopen]
    exact List.mem_singleton.mpr rfl
  · intro c hc
    rw [secBuild_constrs_shape] at hc
    rcases List.mem_append.mp hc with h | h
    · rcases List.mem_append.mp h with h | h
      · exact Or.inl h
      · exact Or.inr (Or.inl h)
    · exact Or.inr (Or.inr h)

/-- Witness for `C6_stage2_constraint_families`: the demand-coverage
constraint of the concrete open-satellite instance is among the built
constraints. -/
theorem C6_stage2_constraint_families_witness :
    ({ name := "R_demand_k" ++ pix1.id ++ "_t" ++ toString 0,
       lhs := ⟨([sat1].flatMap fun s =>
         if 0 < sumYs [(("1", "q1"), 1)] s then
           [((1 : ℚ), varOf (secBuild (secInit 1 [(("1", "q1"), 1)] "s") [sat1] [pix1]
             (fun _ _ _ => 1) (fun _ _ _ => 5) (fun _ _ => 7)).Z (s.id, pix1.id, 0))]
         else []) ++
         [((1 : ℚ), varOf (secBuild (secInit 1 [(("1", "q1"), 1)] "s") [sat1] [pix1]
             (fun _ _ _ => 1) (fun _ _ _ => 5) (fun _ _ => 7)).W (pix1.id, 0))], 0⟩,
       sense := .eq, rhs := 1 } : Constr)
      ∈ (secBuild (secInit 1 [(("1", "q1"), 1)] "s") [sat1] [pix1]
          (fun _ _ _ => 1) (fun _ _ _ => 5) (fun _ _ => 7)).model.constrs :=
  (C6_stage2_constraint_families 1 "s" [(("1", "q1"), 1)] [sat1] [pix1]
      (fun _ _ _ => 1) (fun _ _ _ => 5) (fun _ _ => 7) _ rfl).2.1
    pix1 (List.mem_singleton_self pix1) 0 (by norm_num)

/-! ## Claim C7: `get_results` and the solver status -/

/-- **C7**: the claim says `get_results()` populates `results` and
`metrics` exactly when the solver status is optimal or time-limit, and for
any other status populates nothing, leaves both unchanged and raises no
exception.  The non-accepted branch behaves as claimed — it only logs and
returns with `results` and `metrics` untouched.  But an accepted status
populates nothing either: the kpi block raises before `self.metrics` or
`self.results` is assigned, because `ObjNVal` is not retrievable on a
single-objective model and `CutN`, `BranchN`, … are not gurobipy `Model`
attributes (models.py:326-348, 660-695; see `kpiAttributeError`).
Evaluated here at an optimal-status Stage-1 instance, a freshly loaded
Stage-1 instance, a time-limit Stage-2 instance and a freshly loaded
Stage-2 instance. -/
theorem C7_accepted_status_raises_before_populating :
    detGetResults { detInit 1 "m" with
        model := { GRBModel.new "m" with status := GRBStatus.optimal } }
      = Except.error kpiAttributeError
  ∧ detGetResults (detInit 1 "m") = Except.ok (detInit 1 "m")
  ∧ secGetResults { secInit 1 [] "s" with
        model := { GRBModel.new "s" with status := GRBStatus.timeLimit } }
      = Except.error kpiAttributeError
  ∧ secGetResults (secInit 1 [] "s") = Except.ok (secInit 1 [] "s") :=
  ⟨rfl, rfl, rfl, rfl⟩

/-! ## Claim C10: the Stage-2 objective and the allocation constant -/

theorem list_sum_map_ite_singleton {β : Type} (c : Prop) [Decidable c] (x : β)
    (g : β → ℚ) :
    ((if c then [x] else []).map g).sum = if c then g x else 0 := by
  split <;> simp

theorem list_sum_flatMap {α β : Type} [AddCommMonoid β] (l : List α) (f : α → List β) :
    (l.flatMap f).sum = (l.map fun a => (f a).sum).sum := by
  induction l with
  | nil => rfl
  | cons a l ih => simp [List.flatMap_cons, List.sum_append, ih]

theorem list_sum_ite_singleton (c : Prop) [Decidable c] (x : ℚ) :
    (if c then [x] else ([] : List ℚ)).sum = if c then x else 0 := by
  split <;> simp

theorem secCostOper_eval (P : Nat) (Y : YParam) (Xmap : VarMap (String × String × Nat))
    (sats : List Satellite) (v : Nat → ℚ) :
    (secCostOper P Y Xmap sats).eval v
      = (sats.map fun s => (s.capacity_keys.map fun q => ((List.range P).map fun t =>
          if 0 < yval Y (s.id, q) then
            s.cost_operation q t * v (varOf Xmap (s.id, q, t)) else 0).sum).sum).sum := by
  simp [secCostOper, LinExpr.eval, list_sum_map_flatMap, list_sum_map_ite_singleton]

theorem secCostSat_eval (P : Nat) (Y : YParam) (Zmap : VarMap (String × String × Nat))
    (cS : String → String → Nat → ℚ) (sats : List Satellite) (pixels : List Pixel)
    (v : Nat → ℚ) :
    (secCostSat P Y Zmap cS sats pixels).eval v
      = (sats.map fun s => (pixels.map fun k => ((List.range P).map fun t =>
          if 0 < sumYs Y s then
            cS s.id k.id t * v (varOf Zmap (s.id, k.id, t)) else 0).sum).sum).sum := by
  simp [secCostSat, LinExpr.eval, list_sum_map_flatMap, list_sum_map_ite_singleton]

theorem secCostAllocC_eval (Y : YParam) (sats : List Satellite) :
    secCostAllocC Y sats
      = (sats.map fun s => (s.capacity_keys.map fun q =>
          if 0 < yval Y (s.id, q) then
            s.cost_fixed q * yval Y (s.id, q) else 0).sum).sum := by
  simp [secCostAllocC, list_sum_flatMap, list_sum_ite_singleton]

/-- After Stage-2 `build()` the stored objective is `dc + satellite +
operating` — the allocation constant is not part of it. -/
theorem secBuild_objective_eq (st : SecState) (sats : List Satellite) (pixels : List Pixel)
    (vr cS : String → String → Nat → ℚ) (cD : String → Nat → ℚ) :
    (secBuild st sats pixels vr cS cD).model.objective
      = ((detCostDc st.PERIODS (secBuild st sats pixels vr cS cD).W cD pixels).add
          (secCostSat st.PERIODS st.Y (secBuild st sats pixels vr cS cD).Z cS sats pixels)).add
          (secCostOper st.PERIODS st.Y (secBuild st sats pixels vr cS cD).X sats) := rfl

theorem secBuild_cost_total_eq_objective (st : SecState) (sats : List Satellite)
    (pixels : List Pixel) (vr cS : String → String → Nat → ℚ) (cD : String → Nat → ℚ) :
    (secBuild st sats pixels vr cS cD).cost_total
      = (secBuild st sats pixels vr cS cD).model.objective := rfl

/-- **C10** counterexample: the claim speaks of the *reported*
`cost_total` and `cost_allocation_satellite` metrics, but nothing is ever
reported: at the concrete open-satellite instance, with the built Stage-2
model in optimal status, `get_results()` raises in the kpi block
(models.py:673-674) before the cost metrics at models.py:699 and 717 are
written — the call returns an error, not a populated state. -/
theorem C10_counterexample_reported_metrics_unreachable :
    secGetResults { secBuild (secInit 1 [(("1", "q1"), 1)] "s") [sat1] [pix1]
        (fun _ _ _ => 1) (fun _ _ _ => 5) (fun _ _ => 7) with
      model := { (secBuild (secInit 1 [(("1", "q1"), 1)] "s") [sat1] [pix1]
        (fun _ _ _ => 1) (fun _ _ _ => 5) (fun _ _ => 7)).model with
        status := GRBStatus.optimal } }
      = Except.error kpiAttributeError := rfl

/-- **C10** (amended): the Stage-2 objective evaluates, under any
assignment, to the sum of exactly three components — operating,
satellite-service and DC-service — and the stored `cost_total` expression
is that same objective, excluding the tier-allocation constant; that
constant is computed separately, as a plain number over the fixed positive
`Y` entries, in `cost_allocation_satellites`.  The reporting step of
`get_results` that would publish `cost_total` and
`cost_allocation_satellite` (models.py:699, 717) is never reached: on an
accepted status `get_results` raises at the kpi diagnostic reads first. -/
theorem C10_stage2_objective_excludes_allocation_constant (P : Nat) (name : String)
    (paramY : YParam) (sats : List Satellite) (pixels : List Pixel)
    (vr cS : String → String → Nat → ℚ) (cD : String → Nat → ℚ)
    (v : Nat → ℚ)
    (st : SecState) (hst : st = secBuild (secInit P paramY name) sats pixels vr cS cD) :
    (st.model.objective.eval v
       = (sats.map fun s => (s.capacity_keys.map fun q => ((List.range P).map fun t =>
            if 0 < yval paramY (s.id, q) then
              s.cost_operation q t * v (varOf st.X (s.id, q, t)) else 0).sum).sum).sum
       + (sats.map fun s => (pixels.map fun k => ((List.range P).map fun t =>
            if 0 < sumYs paramY s then
              cS s.id k.id t * v (varOf st.Z (s.id, k.id, t)) else 0).sum).sum).sum
       + (pixels.map fun k => ((List.range P).map fun t =>
            cD k.id t * v (varOf st.W (k.id, t))).sum).sum)
  ∧ st.cost_allocation_satellites
      = (sats.map fun s => (s.capacity_keys.map fun q =>
          if 0 < yval paramY (s.id, q) then
            s.cost_fixed q * yval paramY (s.id, q) else 0).sum).sum
  ∧ st.cost_total = st.model.objective
  ∧ secGetResults { st with model := { st.model with status := GRBStatus.optimal } }
      = Except.error kpiAttributeError := by
  subst hst
  have eP : (secInit P paramY name).PERIODS = P := rfl
  have eY : (secInit P paramY name).Y = paramY := rfl
  refine ⟨?_, ?_, rfl, rfl⟩
  · rw [secBuild_objective_eq, LinExpr.eval_add, LinExpr.eval_add,
      detCostDc_eval, secCostSat_eval, secCostOper_eval, eP, eY]
    ring
  · exact secCostAllocC_eval paramY sats

/-- Witness for `C10_stage2_objective_excludes_allocation_constant`: at the
concrete open-satellite instance, the stored `cost_total` expression is the
built objective (the three-component sum without the allocation
constant). -/
theorem C10_stage2_objective_excludes_allocation_constant_witness :
    (secBuild (secInit 1 [(("1", "q1"), 1)] "s") [sat1] [pix1]
        (fun _ _ _ => 1) (fun _ _ _ => 5) (fun _ _ => 7)).cost_total
      = (secBuild (secInit 1 [(("1", "q1"), 1)] "s") [sat1] [pix1]
        (fun _ _ _ => 1) (fun _ _ _ => 5) (fun _ _ => 7)).model.objective :=
  (C10_stage2_objective_excludes_allocation_constant 1 "s" [(("1", "q1"), 1)]
      [sat1] [pix1] (fun _ _ _ => 1) (fun _ _ _ => 5) (fun _ _ => 7)
      (fun _ => 0) _ rfl).2.2.1
